import Mathlib

/-!
Verification development for the bolderflight mpu9250-arduino driver
(`MPU9250.cpp`, `MPU9250.h`, `src/icm20649.cpp`, `src/icm20948.cpp`).

The drivers are shallowly embedded as pure Lean functions.  State mutation
becomes explicit state passing; the byte-level bus transport (out of scope
for the repository, per its design document) is an environment oracle that
answers each transaction given the history of transactions issued so far.
Machine bytes are `Nat` with explicit `% 256` where the C++ code truncates;
`float`/`double` configuration scale factors are represented by the exact
rational value of the source expression (the claims under study concern
which expression is committed, not IEEE rounding).

The chip headers `Icm20649.h` / `Icm20948.h` are not part of the four
source files; enumeration encodings, register addresses and physical
constants that live only in those headers are modelled from the
specification and marked as such in their doc comments.  No claim settled
here depends on the particular numeric value of a register address, only
on registers being distinct and on the bit-field layout the specification
describes.
-/

/-- A primitive bus transaction attempted by the driver: a single-byte
register write or an `n`-byte burst register read. -/
inductive Txn where
  | wr (reg val : Nat)
  | rd (reg count : Nat)
deriving DecidableEq, Repr

/-- The transport environment plus the history of transactions issued.
`ok hist t` decides whether transaction `t` succeeds given history `hist`;
`resp hist reg i` is byte `i` of the device's answer to a read of `reg`.
The driver under test only observes success flags and response bytes, so
any device behaviour is a choice of `ok` and `resp`. -/
structure Bus where
  ok : List Txn → Txn → Bool
  resp : List Txn → Nat → Nat → Nat
  trace : List Txn

/-- One register write over the bus: records the attempt and reports
whether the transport accepted it. -/
def busWrite (b : Bus) (reg val : Nat) : Bool × Bus :=
  let t := Txn.wr reg (val % 256)
  (b.ok b.trace t, { b with trace := b.trace ++ [t] })

/-- One burst register read over the bus: records the attempt and returns
the response bytes on success. -/
def busRead (b : Bus) (reg count : Nat) : Option (List Nat) × Bus :=
  let t := Txn.rd reg count
  let b2 := { b with trace := b.trace ++ [t] }
  if b.ok b.trace t then
    (some ((List.range count).map fun i => b.resp b.trace reg i % 256), b2)
  else
    (none, b2)

/-- Overwrite the first `vals.length` cells of a scratch buffer, as the
transport fills `data_buf_` on a successful read. -/
def updBuf (buf : Nat → Nat) (vals : List Nat) : Nat → Nat :=
  fun i => if i < vals.length then vals.getD i 0 else buf i

/-- Overwrite cell 0 of a scratch buffer (the in-place bit fiddling the
config routines perform on `data_buf_[0]`). -/
def setBuf0 (buf : Nat → Nat) (v : Nat) : Nat → Nat :=
  fun i => if i = 0 then v else buf i

/-- Reinterpret a 16-bit pattern as a signed two's-complement value, the
effect of the C++ assignments into `int16_t`. -/
def toI16 (v : Nat) : Int :=
  if v % 65536 < 32768 then ((v % 65536 : Nat) : Int)
  else ((v % 65536 : Nat) : Int) - 65536

/-- Big-endian combination `static_cast<int16_t>(hi) << 8 | lo`. -/
def be16 (hi lo : Nat) : Int := toI16 ((hi % 256) * 256 + lo % 256)

/-- The value of the last write to `reg` in a trace, if any. -/
def lastWr (tr : List Txn) (reg : Nat) : Option Nat :=
  tr.reverse.findSome? fun t =>
    match t with
    | Txn.wr r v => if r = reg then some v else none
    | Txn.rd _ _ => none

/-- Number of writes to `reg` in a trace. -/
def countWr (tr : List Txn) (reg : Nat) : Nat :=
  (tr.filter fun t =>
    match t with
    | Txn.wr r _ => r = reg
    | Txn.rd _ _ => false).length

/-- Interface mode selected by `Config`. -/
inductive Iface where
  | i2c
  | spi
deriving DecidableEq, Repr

/-- `32767.5`, the signed 16-bit half-range divisor used by every scale
factor in the sources. -/
def half16 : ℚ := 65535 / 2

namespace Icm20649

/-- Register-bank select register, `REG_BANK_SEL_` (bank-independent). -/
def REG_BANK_SEL_ : Nat := 0x7F
/-- `USER_CTRL_` (bank 0). -/
def USER_CTRL_ : Nat := 0x03
/-- `PWR_MGMT_1_` (bank 0). -/
def PWR_MGMT_1_ : Nat := 0x06
/-- `WHO_AM_I_` (bank 0). -/
def WHO_AM_I_ : Nat := 0x00
/-- `INT_ENABLE_1_` (bank 0). -/
def INT_ENABLE_1_ : Nat := 0x11
/-- `INT_STATUS_1_` (bank 0). -/
def INT_STATUS_1_ : Nat := 0x1A
/-- `ACCEL_XOUT_H` (bank 0). -/
def ACCEL_XOUT_H : Nat := 0x2D
/-- `ODR_ALIGN_EN_` (bank 2). -/
def ODR_ALIGN_EN_ : Nat := 0x09
/-- `GYRO_SMPLRT_DIV_` (bank 2). -/
def GYRO_SMPLRT_DIV_ : Nat := 0x00
/-- `GYRO_CONFIG_1_` (bank 2). -/
def GYRO_CONFIG_1_ : Nat := 0x01
/-- `ACCEL_SMPLRT_DIV_2_` (bank 2). -/
def ACCEL_SMPLRT_DIV_2_ : Nat := 0x11
/-- `ACCEL_CONFIG_` (bank 2). -/
def ACCEL_CONFIG_ : Nat := 0x14
/-- `I2C_IF_DIS_` bit value. -/
def I2C_IF_DIS_ : Nat := 0x10
/-- `CLKSEL_AUTO_` value. -/
def CLKSEL_AUTO_ : Nat := 0x01
/-- `H_RESET_` value. -/
def H_RESET_ : Nat := 0x80
/-- `ALIGN_ODR_` value. -/
def ALIGN_ODR_ : Nat := 0x01
/-- `INT_RAW_RDY_EN_` value. -/
def INT_RAW_RDY_EN_ : Nat := 0x01
/-- `INT_DISABLE_` value. -/
def INT_DISABLE_ : Nat := 0x00
/-- `RAW_DATA_RDY_INT_` status bit. -/
def RAW_DATA_RDY_INT_ : Nat := 0x01
/-- Modelled from the spec: the expected `WHO_AM_I_` identity constant
`WHOAMI_ICM20649_`; its numeric value lives in the missing `Icm20649.h`.
Only its role as "an expected constant" matters to the claims. -/
def WHOAMI_ICM20649_ : Nat := 0xE1

/-- Modelled from the spec: `AccelRange` enumerator `ACCEL_RANGE_4G`; the
header with the enumerator encodings is not under `src/`.  The spec
describes a 2-bit range field, giving the four enumerators the values
`0..3` in order. -/
def ACCEL_RANGE_4G : Nat := 0
/-- Modelled from the spec: `AccelRange` enumerator `ACCEL_RANGE_8G`. -/
def ACCEL_RANGE_8G : Nat := 1
/-- Modelled from the spec: `AccelRange` enumerator `ACCEL_RANGE_16G`. -/
def ACCEL_RANGE_16G : Nat := 2
/-- Modelled from the spec: `AccelRange` enumerator `ACCEL_RANGE_30G`. -/
def ACCEL_RANGE_30G : Nat := 3
/-- Modelled from the spec: `GyroRange` enumerator `GYRO_RANGE_500DPS`. -/
def GYRO_RANGE_500DPS : Nat := 0
/-- Modelled from the spec: `GyroRange` enumerator `GYRO_RANGE_1000DPS`. -/
def GYRO_RANGE_1000DPS : Nat := 1
/-- Modelled from the spec: `GyroRange` enumerator `GYRO_RANGE_2000DPS`. -/
def GYRO_RANGE_2000DPS : Nat := 2
/-- Modelled from the spec: `GyroRange` enumerator `GYRO_RANGE_4000DPS`. -/
def GYRO_RANGE_4000DPS : Nat := 3
/-- Modelled from the spec: the accel DLPF enumerators occupy the 3-bit
filter-select field; values follow the header order `246,111,50,23,11,5,473` Hz
starting at 1. -/
def ACCEL_DLPF_BANDWIDTH_246HZ : Nat := 1
/-- Modelled from the spec: accel DLPF enumerator, 111 Hz. -/
def ACCEL_DLPF_BANDWIDTH_111HZ : Nat := 2
/-- Modelled from the spec: accel DLPF enumerator, 50 Hz. -/
def ACCEL_DLPF_BANDWIDTH_50HZ : Nat := 3
/-- Modelled from the spec: accel DLPF enumerator, 23 Hz. -/
def ACCEL_DLPF_BANDWIDTH_23HZ : Nat := 4
/-- Modelled from the spec: accel DLPF enumerator, 11 Hz. -/
def ACCEL_DLPF_BANDWIDTH_11HZ : Nat := 5
/-- Modelled from the spec: accel DLPF enumerator, 5 Hz. -/
def ACCEL_DLPF_BANDWIDTH_5HZ : Nat := 6
/-- Modelled from the spec: accel DLPF enumerator, 473 Hz. -/
def ACCEL_DLPF_BANDWIDTH_473HZ : Nat := 7
/-- Modelled from the spec: gyro DLPF enumerator, 196 Hz. -/
def GYRO_DLPF_BANDWIDTH_196HZ : Nat := 0
/-- Modelled from the spec: gyro DLPF enumerator, 151 Hz. -/
def GYRO_DLPF_BANDWIDTH_151HZ : Nat := 1
/-- Modelled from the spec: gyro DLPF enumerator, 119 Hz. -/
def GYRO_DLPF_BANDWIDTH_119HZ : Nat := 2
/-- Modelled from the spec: gyro DLPF enumerator, 51 Hz. -/
def GYRO_DLPF_BANDWIDTH_51HZ : Nat := 3
/-- Modelled from the spec: gyro DLPF enumerator, 23 Hz. -/
def GYRO_DLPF_BANDWIDTH_23HZ : Nat := 4
/-- Modelled from the spec: gyro DLPF enumerator, 11 Hz. -/
def GYRO_DLPF_BANDWIDTH_11HZ : Nat := 5
/-- Modelled from the spec: gyro DLPF enumerator, 5 Hz. -/
def GYRO_DLPF_BANDWIDTH_5HZ : Nat := 6
/-- Modelled from the spec: gyro DLPF enumerator, 361 Hz. -/
def GYRO_DLPF_BANDWIDTH_361HZ : Nat := 7

/-- Modelled from the spec: `sizeof(data_buf_)` for the ICM20649 driver;
the burst read in `Read` uses exactly 14 bytes. -/
def DATA_BUF_SIZE_ : Nat := 14

/-- Modelled from the spec: gravity constant `G_MPS2_` (exact rational of
the header's float literal 9.80665). -/
def G_MPS2_ : ℚ := 980665 / 100000
/-- Modelled from the spec: temperature scale constant `TEMP_SCALE_`
(333.87 counts per degree C). -/
def TEMP_SCALE_ : ℚ := 33387 / 100
/-- Modelled from the spec: degrees-to-radians constant `DEG2RAD_`. -/
def DEG2RAD_ : ℚ := 3141592653589793 / (180 * 1000000000000000)

/-- The mutable member state of an `Icm20649` driver instance, one field
per data member of the C++ class that the modelled operations touch. -/
structure St where
  iface : Iface
  currentBank : Nat
  whoAmI : Nat
  requestedAccelRange : Nat
  requestedAccelScale : ℚ
  requestedGyroRange : Nat
  requestedGyroScale : ℚ
  accelRange : Nat
  accelScale : ℚ
  gyroRange : Nat
  gyroScale : ℚ
  accelRequestedDlpf : Nat
  accelDlpfBandwidth : Nat
  gyroRequestedDlpf : Nat
  gyroDlpfBandwidth : Nat
  srd : Nat
  dataBuf : Nat → Nat
  newImuData : Bool
  accelCnts : List Int
  gyroCnts : List Int
  tempCnts : Int
  accel : List ℚ
  gyro : List ℚ
  temp : ℚ

/-- `Icm20649::SetBank`: write the bank-select register only when the
requested bank differs from the cached bank; cache updates on success. -/
def SetBank (st : St) (b : Bus) (bank : Nat) : Bool × St × Bus :=
  if bank ≠ st.currentBank then
    let (w, b1) := busWrite b REG_BANK_SEL_ (bank <<< 4)
    if w then (true, { st with currentBank := bank }, b1)
    else (false, st, b1)
  else
    (true, st, b)

/-- `Icm20649::WriteRegister`: direct delegation to the transport. -/
def WriteRegister (st : St) (b : Bus) (reg data : Nat) : Bool × St × Bus :=
  let (w, b1) := busWrite b reg data
  (w, st, b1)

/-- `Icm20649::ReadRegisters`: direct delegation to the transport. -/
def ReadRegisters (st : St) (b : Bus) (reg count : Nat) :
    Option (List Nat) × St × Bus :=
  let (r, b1) := busRead b reg count
  (r, st, b1)

/-- The staged accel scale of `Icm20649::ConfigAccelRange`'s validation
switch: note the `ACCEL_RANGE_30G` case commits `32.0f / 32767.5f`. -/
def accelScaleOf (range : Nat) : Option ℚ :=
  if range = ACCEL_RANGE_4G then some (4 / half16)
  else if range = ACCEL_RANGE_8G then some (8 / half16)
  else if range = ACCEL_RANGE_16G then some (16 / half16)
  else if range = ACCEL_RANGE_30G then some (32 / half16)
  else none

/-- The staged gyro scale of `Icm20649::ConfigGyroRange`'s validation
switch. -/
def gyroScaleOf (range : Nat) : Option ℚ :=
  if range = GYRO_RANGE_500DPS then some (500 / half16)
  else if range = GYRO_RANGE_1000DPS then some (1000 / half16)
  else if range = GYRO_RANGE_2000DPS then some (2000 / half16)
  else if range = GYRO_RANGE_4000DPS then some (4000 / half16)
  else none

/-- `Icm20649::ConfigAccelRange`. -/
def ConfigAccelRange (st : St) (b : Bus) (range : Nat) : Bool × St × Bus :=
  match SetBank st b 2 with
  | (false, st1, b1) => (false, st1, b1)
  | (true, st1, b1) =>
    match accelScaleOf range with
    | none => (false, st1, b1)
    | some sc =>
      let st2 := { st1 with requestedAccelRange := range,
                            requestedAccelScale := sc }
      let (r, b2) := busRead b1 ACCEL_CONFIG_ 1
      let st3 :=
        match r with
        | some vals => { st2 with dataBuf := updBuf st2.dataBuf vals }
        | none => st2
      let v := ((st3.dataBuf 0 &&& 0xF9) |||
                ((st3.requestedAccelRange <<< 1) % 256)) % 256
      let st4 := { st3 with dataBuf := setBuf0 st3.dataBuf v }
      let (w, b3) := busWrite b2 ACCEL_CONFIG_ v
      if w then
        (true, { st4 with accelRange := st4.requestedAccelRange,
                          accelScale := st4.requestedAccelScale }, b3)
      else
        (false, st4, b3)

/-- `Icm20649::ConfigGyroRange`.  The read-modify-write composes the byte
from `requested_accel_range_`, exactly as the source does on line 198. -/
def ConfigGyroRange (st : St) (b : Bus) (range : Nat) : Bool × St × Bus :=
  match SetBank st b 2 with
  | (false, st1, b1) => (false, st1, b1)
  | (true, st1, b1) =>
    match gyroScaleOf range with
    | none => (false, st1, b1)
    | some sc =>
      let st2 := { st1 with requestedGyroRange := range,
                            requestedGyroScale := sc }
      let (r, b2) := busRead b1 GYRO_CONFIG_1_ 1
      let st3 :=
        match r with
        | some vals => { st2 with dataBuf := updBuf st2.dataBuf vals }
        | none => st2
      let v := ((st3.dataBuf 0 &&& 0xF9) |||
                ((st3.requestedAccelRange <<< 1) % 256)) % 256
      let st4 := { st3 with dataBuf := setBuf0 st3.dataBuf v }
      let (w, b3) := busWrite b2 GYRO_CONFIG_1_ v
      if w then
        (true, { st4 with gyroRange := st4.requestedGyroRange,
                          gyroScale := st4.requestedGyroScale }, b3)
      else
        (false, st4, b3)

/-- `Icm20649::ConfigSrd`. -/
def ConfigSrd (st : St) (b : Bus) (srd : Nat) : Bool × St × Bus :=
  match SetBank st b 2 with
  | (false, st1, b1) => (false, st1, b1)
  | (true, st1, b1) =>
    let (w1, b2) := busWrite b1 ACCEL_SMPLRT_DIV_2_ srd
    if ¬w1 then (false, st1, b2)
    else
      let (w2, b3) := busWrite b2 GYRO_SMPLRT_DIV_ srd
      if ¬w2 then (false, st1, b3)
      else (true, { st1 with srd := srd % 256 }, b3)

/-- Validation switch of `Icm20649::ConfigAccelDlpfBandwidth`: the seven
accel DLPF enumerators are accepted, anything else rejected. -/
def accelDlpfValid (dlpf : Nat) : Bool :=
  dlpf = ACCEL_DLPF_BANDWIDTH_246HZ ∨ dlpf = ACCEL_DLPF_BANDWIDTH_111HZ ∨
  dlpf = ACCEL_DLPF_BANDWIDTH_50HZ ∨ dlpf = ACCEL_DLPF_BANDWIDTH_23HZ ∨
  dlpf = ACCEL_DLPF_BANDWIDTH_11HZ ∨ dlpf = ACCEL_DLPF_BANDWIDTH_5HZ ∨
  dlpf = ACCEL_DLPF_BANDWIDTH_473HZ

/-- Validation switch of `Icm20649::ConfigGyroDlpfBandwidth`. -/
def gyroDlpfValid (dlpf : Nat) : Bool :=
  dlpf = GYRO_DLPF_BANDWIDTH_196HZ ∨ dlpf = GYRO_DLPF_BANDWIDTH_151HZ ∨
  dlpf = GYRO_DLPF_BANDWIDTH_119HZ ∨ dlpf = GYRO_DLPF_BANDWIDTH_51HZ ∨
  dlpf = GYRO_DLPF_BANDWIDTH_23HZ ∨ dlpf = GYRO_DLPF_BANDWIDTH_11HZ ∨
  dlpf = GYRO_DLPF_BANDWIDTH_5HZ ∨ dlpf = GYRO_DLPF_BANDWIDTH_361HZ

/-- `Icm20649::ConfigAccelDlpfBandwidth`. -/
def ConfigAccelDlpfBandwidth (st : St) (b : Bus) (dlpf : Nat) :
    Bool × St × Bus :=
  match SetBank st b 2 with
  | (false, st1, b1) => (false, st1, b1)
  | (true, st1, b1) =>
    if ¬accelDlpfValid dlpf then (false, st1, b1)
    else
      let st2 := { st1 with accelRequestedDlpf := dlpf }
      let (r, b2) := busRead b1 ACCEL_CONFIG_ 1
      let st3 :=
        match r with
        | some vals => { st2 with dataBuf := updBuf st2.dataBuf vals }
        | none => st2
      let v := ((((st3.dataBuf 0 ||| 0x01) &&& 0xC7) |||
                 ((st3.accelRequestedDlpf <<< 3) % 256)) % 256)
      let st4 := { st3 with dataBuf := setBuf0 st3.dataBuf v }
      let (w, b3) := busWrite b2 ACCEL_CONFIG_ v
      if w then
        (true, { st4 with accelDlpfBandwidth := st4.accelRequestedDlpf }, b3)
      else
        (false, st4, b3)

/-- `Icm20649::ConfigGyroDlpfBandwidth` (reads `sizeof(data_buf_)` bytes
from `GYRO_CONFIG_1_`, as the source does). -/
def ConfigGyroDlpfBandwidth (st : St) (b : Bus) (dlpf : Nat) :
    Bool × St × Bus :=
  match SetBank st b 2 with
  | (false, st1, b1) => (false, st1, b1)
  | (true, st1, b1) =>
    if ¬gyroDlpfValid dlpf then (false, st1, b1)
    else
      let st2 := { st1 with gyroRequestedDlpf := dlpf }
      let (r, b2) := busRead b1 GYRO_CONFIG_1_ DATA_BUF_SIZE_
      let st3 :=
        match r with
        | some vals => { st2 with dataBuf := updBuf st2.dataBuf vals }
        | none => st2
      let v := ((((st3.dataBuf 0 ||| 0x01) &&& 0xC7) |||
                 ((st3.gyroRequestedDlpf <<< 3) % 256)) % 256)
      let st4 := { st3 with dataBuf := setBuf0 st3.dataBuf v }
      let (w, b3) := busWrite b2 GYRO_CONFIG_1_ v
      if w then
        (true, { st4 with gyroDlpfBandwidth := st4.gyroRequestedDlpf }, b3)
      else
        (false, st4, b3)

/-- `Icm20649::EnableDrdyInt`. -/
def EnableDrdyInt (st : St) (b : Bus) : Bool × St × Bus :=
  match SetBank st b 0 with
  | (false, st1, b1) => (false, st1, b1)
  | (true, st1, b1) =>
    let (w, b2) := busWrite b1 INT_ENABLE_1_ INT_RAW_RDY_EN_
    (w, st1, b2)

/-- `Icm20649::Begin`.  The SPI-only `I2C_IF_DIS_` write only logs on
failure, and the `SetBank(2)` before the ODR-align write discards its
result, both exactly as in the source. -/
def Begin (st : St) (b : Bus) : Bool × St × Bus :=
  let (st, b) :=
    if st.iface = Iface.spi then
      match WriteRegister st b USER_CTRL_ I2C_IF_DIS_ with
      | (_, st, b) => (st, b)
    else (st, b)
  match SetBank st b 0 with
  | (false, st, b) => (false, st, b)
  | (true, st, b) =>
  match WriteRegister st b PWR_MGMT_1_ CLKSEL_AUTO_ with
  | (false, st, b) => (false, st, b)
  | (true, st, b) =>
  match ReadRegisters st b WHO_AM_I_ 1 with
  | (none, st, b) => (false, st, b)
  | (some vals, st, b) =>
  let st := { st with whoAmI := vals.getD 0 st.whoAmI }
  if st.whoAmI ≠ WHOAMI_ICM20649_ then (false, st, b)
  else
  match SetBank st b 2 with
  | (_, st, b) =>
  match WriteRegister st b ODR_ALIGN_EN_ ALIGN_ODR_ with
  | (false, st, b) => (false, st, b)
  | (true, st, b) =>
  match ConfigAccelRange st b ACCEL_RANGE_30G with
  | (false, st, b) => (false, st, b)
  | (true, st, b) =>
  match ConfigGyroRange st b GYRO_RANGE_4000DPS with
  | (false, st, b) => (false, st, b)
  | (true, st, b) =>
  match ConfigAccelDlpfBandwidth st b ACCEL_DLPF_BANDWIDTH_111HZ with
  | (false, st, b) => (false, st, b)
  | (true, st, b) =>
  match ConfigGyroDlpfBandwidth st b GYRO_DLPF_BANDWIDTH_119HZ with
  | (false, st, b) => (false, st, b)
  | (true, st, b) =>
  match ConfigSrd st b 0 with
  | (false, st, b) => (false, st, b)
  | (true, st, b) => (true, st, b)

/-- `Icm20649::Read`.  The result of the leading `SetBank(0)` and of the
14-byte burst read are both discarded, exactly as in the source. -/
def Read (st : St) (b : Bus) : Bool × St × Bus :=
  match SetBank st b 0 with
  | (_, st, b) =>
  let st := { st with newImuData := false }
  match busRead b INT_STATUS_1_ 1 with
  | (none, b) => (false, st, b)
  | (some vals, b) =>
  let st := { st with dataBuf := updBuf st.dataBuf vals }
  let ready := (st.dataBuf 0 &&& RAW_DATA_RDY_INT_) != 0
  let st := { st with newImuData := ready }
  if ¬ready then (false, st, b)
  else
  let (r, b) := busRead b ACCEL_XOUT_H 14
  let st :=
    match r with
    | some vals => { st with dataBuf := updBuf st.dataBuf vals }
    | none => st
  let a0 := be16 (st.dataBuf 0) (st.dataBuf 1)
  let a1 := be16 (st.dataBuf 2) (st.dataBuf 3)
  let a2 := be16 (st.dataBuf 4) (st.dataBuf 5)
  let g0 := be16 (st.dataBuf 6) (st.dataBuf 7)
  let g1 := be16 (st.dataBuf 8) (st.dataBuf 9)
  let g2 := be16 (st.dataBuf 10) (st.dataBuf 11)
  let t0 := be16 (st.dataBuf 12) (st.dataBuf 13)
  let st := { st with
    accelCnts := [a0, a1, a2],
    gyroCnts := [g0, g1, g2],
    tempCnts := t0,
    accel := [(a0 : ℚ) * st.accelScale * G_MPS2_,
              (a1 : ℚ) * st.accelScale * (-1) * G_MPS2_,
              (a2 : ℚ) * st.accelScale * (-1) * G_MPS2_],
    temp := ((t0 : ℚ) - 21) / TEMP_SCALE_ + 21,
    gyro := [(g0 : ℚ) * st.gyroScale * DEG2RAD_,
             (g1 : ℚ) * st.gyroScale * (-1) * DEG2RAD_,
             (g2 : ℚ) * st.gyroScale * (-1) * DEG2RAD_] }
  (true, st, b)

end Icm20649

namespace Icm20948

/-- Bank constant `BANK_0_`. -/
def BANK_0_ : Nat := 0
/-- Bank constant `BANK_2_`. -/
def BANK_2_ : Nat := 2
/-- Bank constant `BANK_3_`. -/
def BANK_3_ : Nat := 3
/-- Register-bank select register `REG_BANK_SEL_`. -/
def REG_BANK_SEL_ : Nat := 0x7F
/-- `USER_CTRL_` (bank 0). -/
def USER_CTRL_ : Nat := 0x03
/-- `PWR_MGMT_1_` (bank 0). -/
def PWR_MGMT_1_ : Nat := 0x06
/-- `WHO_AM_I_` (bank 0). -/
def WHO_AM_I_ : Nat := 0x00
/-- `INT_STATUS_1_` (bank 0). -/
def INT_STATUS_1_ : Nat := 0x1A
/-- `ACCEL_XOUT_H` (bank 0). -/
def ACCEL_XOUT_H : Nat := 0x2D
/-- `EXT_SLV_SENS_DATA_00_` (bank 0), the external-sensor data window. -/
def EXT_SLV_SENS_DATA_00_ : Nat := 0x3B
/-- `ODR_ALIGN_EN_` (bank 2). -/
def ODR_ALIGN_EN_ : Nat := 0x09
/-- `GYRO_SMPLRT_DIV_` (bank 2). -/
def GYRO_SMPLRT_DIV_ : Nat := 0x00
/-- `GYRO_CONFIG_1_` (bank 2). -/
def GYRO_CONFIG_1_ : Nat := 0x01
/-- `ACCEL_SMPLRT_DIV_2_` (bank 2). -/
def ACCEL_SMPLRT_DIV_2_ : Nat := 0x11
/-- `ACCEL_CONFIG_` (bank 2). -/
def ACCEL_CONFIG_ : Nat := 0x14
/-- `TEMP_CONFIG_` (bank 2). -/
def TEMP_CONFIG_ : Nat := 0x53
/-- `I2C_MST_CTRL_` (bank 3). -/
def I2C_MST_CTRL_ : Nat := 0x01
/-- `I2C_SLV0_ADDR_` (bank 3). -/
def I2C_SLV0_ADDR_ : Nat := 0x03
/-- `I2C_SLV0_REG_` (bank 3). -/
def I2C_SLV0_REG_ : Nat := 0x04
/-- `I2C_SLV0_CTRL_` (bank 3). -/
def I2C_SLV0_CTRL_ : Nat := 0x05
/-- `I2C_SLV0_D0_` (bank 3). -/
def I2C_SLV0_D0_ : Nat := 0x06
/-- `USER_CTRL_I2C_IF_DIS_` value. -/
def USER_CTRL_I2C_IF_DIS_ : Nat := 0x10
/-- `USER_CTRL_I2C_MST_EN_` value. -/
def USER_CTRL_I2C_MST_EN_ : Nat := 0x20
/-- `PWR_MGMT_1_CLKSEL_AUTO_` value. -/
def PWR_MGMT_1_CLKSEL_AUTO_ : Nat := 0x01
/-- `PWR_MGMT_1_RESET_` value. -/
def PWR_MGMT_1_RESET_ : Nat := 0x80
/-- `I2C_MST_CTRL_400_KHZ_CLK_` value. -/
def I2C_MST_CTRL_400_KHZ_CLK_ : Nat := 0x07
/-- `RAW_DATA_RDY_INT_` status bit. -/
def RAW_DATA_RDY_INT_ : Nat := 0x01
/-- `ODR_ALIGN_EN_ALIGN_ENABLE_` value. -/
def ODR_ALIGN_EN_ALIGN_ENABLE_ : Nat := 0x01
/-- Auxiliary magnetometer I2C address `AK09916_I2C_ADDR_`. -/
def AK09916_I2C_ADDR_ : Nat := 0x0C
/-- Read flag `I2C_SLV0_ADDR_READ_` ORed onto the slave address. -/
def I2C_SLV0_ADDR_READ_ : Nat := 0x80
/-- Transfer-enable bit `I2C_SLV0_CTRL_EN_`. -/
def I2C_SLV0_CTRL_EN_ : Nat := 0x80
/-- AK09916 identity register `AK09916_WIA2_`. -/
def AK09916_WIA2_ : Nat := 0x01
/-- AK09916 status-1 register `AK09916_ST1_`. -/
def AK09916_ST1_ : Nat := 0x10
/-- Modelled from the spec: the auxiliary device's data-ready status bit
`AK09916_ST1_DRDY_` (its numeric value lives in the missing header). -/
def AK09916_ST1_DRDY_ : Nat := 0x01
/-- Modelled from the spec: the auxiliary device's overflow status bit
`AK09916_ST2_HOFL_`. -/
def AK09916_ST2_HOFL_ : Nat := 0x08
/-- AK09916 control-2 register `AK09916_CNTL2_`. -/
def AK09916_CNTL2_ : Nat := 0x31
/-- `AK09916_CNTL2_CONT_MEAS_MODE1_` value. -/
def AK09916_CNTL2_CONT_MEAS_MODE1_ : Nat := 0x02
/-- AK09916 control-3 register `AK09916_CNTL3_`. -/
def AK09916_CNTL3_ : Nat := 0x32
/-- `AK09916_CNTL3_SRST_` soft-reset value. -/
def AK09916_CNTL3_SRST_ : Nat := 0x01
/-- Modelled from the spec: the expected primary identity constant; the
source compares against a constant named `WHOAMI_ICM20649_` whose value is
in the missing header. -/
def WHOAMI_ICM20649_ : Nat := 0xE1
/-- Modelled from the spec: the expected auxiliary identity constant
`WHOAMI_AK09916_`. -/
def WHOAMI_AK09916_ : Nat := 0x09
/-- Modelled from the spec: `sizeof(data_buf_)`; the ICM20948 burst read
spans accel, gyro, temperature, mag status and mag data, 23 bytes. -/
def DATA_BUF_SIZE_ : Nat := 23
/-- Modelled from the spec: `sizeof(mag_data_)`, the discard-read span of
the auxiliary status+data registers. -/
def MAG_DATA_SIZE_ : Nat := 9
/-- Modelled from the spec: `AccelRange` enumerator `ACCEL_RANGE_2G`. -/
def ACCEL_RANGE_2G : Nat := 0
/-- Modelled from the spec: `AccelRange` enumerator `ACCEL_RANGE_4G`. -/
def ACCEL_RANGE_4G : Nat := 1
/-- Modelled from the spec: `AccelRange` enumerator `ACCEL_RANGE_8G`. -/
def ACCEL_RANGE_8G : Nat := 2
/-- Modelled from the spec: `AccelRange` enumerator `ACCEL_RANGE_16G`. -/
def ACCEL_RANGE_16G : Nat := 3
/-- Modelled from the spec: `GyroRange` enumerator `GYRO_RANGE_250DPS`. -/
def GYRO_RANGE_250DPS : Nat := 0
/-- Modelled from the spec: `GyroRange` enumerator `GYRO_RANGE_500DPS`. -/
def GYRO_RANGE_500DPS : Nat := 1
/-- Modelled from the spec: `GyroRange` enumerator `GYRO_RANGE_1000DPS`. -/
def GYRO_RANGE_1000DPS : Nat := 2
/-- Modelled from the spec: `GyroRange` enumerator `GYRO_RANGE_2000DPS`. -/
def GYRO_RANGE_2000DPS : Nat := 3
/-- Modelled from the spec: accel DLPF enumerator, 246 Hz. -/
def ACCEL_DLPF_BANDWIDTH_246HZ : Nat := 1
/-- Modelled from the spec: accel DLPF enumerator, 111 Hz. -/
def ACCEL_DLPF_BANDWIDTH_111HZ : Nat := 2
/-- Modelled from the spec: accel DLPF enumerator, 50 Hz. -/
def ACCEL_DLPF_BANDWIDTH_50HZ : Nat := 3
/-- Modelled from the spec: accel DLPF enumerator, 23 Hz. -/
def ACCEL_DLPF_BANDWIDTH_23HZ : Nat := 4
/-- Modelled from the spec: accel DLPF enumerator, 11 Hz. -/
def ACCEL_DLPF_BANDWIDTH_11HZ : Nat := 5
/-- Modelled from the spec: accel DLPF enumerator, 5 Hz. -/
def ACCEL_DLPF_BANDWIDTH_5HZ : Nat := 6
/-- Modelled from the spec: accel DLPF enumerator, 473 Hz. -/
def ACCEL_DLPF_BANDWIDTH_473HZ : Nat := 7
/-- Modelled from the spec: gyro DLPF enumerator, 196 Hz. -/
def GYRO_DLPF_BANDWIDTH_196HZ : Nat := 0
/-- Modelled from the spec: gyro DLPF enumerator, 151 Hz. -/
def GYRO_DLPF_BANDWIDTH_151HZ : Nat := 1
/-- Modelled from the spec: gyro DLPF enumerator, 119 Hz. -/
def GYRO_DLPF_BANDWIDTH_119HZ : Nat := 2
/-- Modelled from the spec: gyro DLPF enumerator, 51 Hz. -/
def GYRO_DLPF_BANDWIDTH_51HZ : Nat := 3
/-- Modelled from the spec: gyro DLPF enumerator, 23 Hz. -/
def GYRO_DLPF_BANDWIDTH_23HZ : Nat := 4
/-- Modelled from the spec: gyro DLPF enumerator, 11 Hz. -/
def GYRO_DLPF_BANDWIDTH_11HZ : Nat := 5
/-- Modelled from the spec: gyro DLPF enumerator, 5 Hz. -/
def GYRO_DLPF_BANDWIDTH_5HZ : Nat := 6
/-- Modelled from the spec: gyro DLPF enumerator, 361 Hz. -/
def GYRO_DLPF_BANDWIDTH_361HZ : Nat := 7
/-- Modelled from the spec: temp DLPF enumerator, 7932 Hz. -/
def TEMP_DLPF_BANDWIDTH_7932HZ : Nat := 0
/-- Modelled from the spec: temp DLPF enumerator, 217 Hz. -/
def TEMP_DLPF_BANDWIDTH_217HZ : Nat := 1
/-- Modelled from the spec: temp DLPF enumerator, 123 Hz. -/
def TEMP_DLPF_BANDWIDTH_123HZ : Nat := 2
/-- Modelled from the spec: temp DLPF enumerator, 65 Hz. -/
def TEMP_DLPF_BANDWIDTH_65HZ : Nat := 3
/-- Modelled from the spec: temp DLPF enumerator, 34 Hz. -/
def TEMP_DLPF_BANDWIDTH_34HZ : Nat := 4
/-- Modelled from the spec: temp DLPF enumerator, 17 Hz. -/
def TEMP_DLPF_BANDWIDTH_17HZ : Nat := 5
/-- Modelled from the spec: temp DLPF enumerator, 8 Hz. -/
def TEMP_DLPF_BANDWIDTH_8HZ : Nat := 6
/-- Modelled from the spec: gravity constant `G_MPS2_`. -/
def G_MPS2_ : ℚ := 980665 / 100000
/-- Modelled from the spec: temperature scale `TEMP_SCALE_`. -/
def TEMP_SCALE_ : ℚ := 33387 / 100
/-- Modelled from the spec: degrees-to-radians constant `DEG2RAD_`. -/
def DEG2RAD_ : ℚ := 3141592653589793 / (180 * 1000000000000000)
/-- Modelled from the spec: magnetometer LSB size `MAG_SCALE_` in
microtesla per count. -/
def MAG_SCALE_ : ℚ := 4912 / 32760

/-- The mutable member state of an `Icm20948` driver instance. -/
structure St where
  iface : Iface
  currentBank : Nat
  whoAmI : Nat
  requestedAccelRange : Nat
  requestedAccelScale : ℚ
  requestedGyroRange : Nat
  requestedGyroScale : ℚ
  accelRange : Nat
  accelScale : ℚ
  gyroRange : Nat
  gyroScale : ℚ
  accelRequestedDlpf : Nat
  accelDlpfBandwidth : Nat
  gyroRequestedDlpf : Nat
  gyroDlpfBandwidth : Nat
  tempRequestedDlpf : Nat
  tempDlpfBandwidth : Nat
  srd : Nat
  dataBuf : Nat → Nat
  magData : Nat → Nat
  newImuData : Bool
  newMagData : Bool
  magSensorOverflow : Bool
  accelCnts : List Int
  gyroCnts : List Int
  magCnts : List Int
  tempCnts : Int
  accel : List ℚ
  gyro : List ℚ
  mag : List ℚ
  temp : ℚ

/-- `Icm20948::WriteRegister`: implicit bank select (only when the
requested bank differs from the cached one) followed by the data write. -/
def WriteRegister (st : St) (b : Bus) (bank reg data : Nat) :
    Bool × St × Bus :=
  if bank ≠ st.currentBank then
    let (w, b1) := busWrite b REG_BANK_SEL_ (bank <<< 4)
    if ¬w then (false, st, b1)
    else
      let st1 := { st with currentBank := bank }
      let (w2, b2) := busWrite b1 reg data
      (w2, st1, b2)
  else
    let (w2, b2) := busWrite b reg data
    (w2, st, b2)

/-- `Icm20948::ReadRegisters`: implicit bank select followed by the burst
read. -/
def ReadRegisters (st : St) (b : Bus) (bank reg count : Nat) :
    Option (List Nat) × St × Bus :=
  if bank ≠ st.currentBank then
    let (w, b1) := busWrite b REG_BANK_SEL_ (bank <<< 4)
    if ¬w then (none, st, b1)
    else
      let st1 := { st with currentBank := bank }
      let (r, b2) := busRead b1 reg count
      (r, st1, b2)
  else
    let (r, b2) := busRead b reg count
    (r, st, b2)

/-- `Icm20948::ReadAk09916Registers`: arm the auxiliary master for a read
and fetch the result from the external-sensor data window. -/
def ReadAk09916Registers (st : St) (b : Bus) (reg count : Nat) :
    Option (List Nat) × St × Bus :=
  match WriteRegister st b BANK_3_ I2C_SLV0_ADDR_
      (AK09916_I2C_ADDR_ ||| I2C_SLV0_ADDR_READ_) with
  | (false, st, b) => (none, st, b)
  | (true, st, b) =>
  match WriteRegister st b BANK_3_ I2C_SLV0_REG_ reg with
  | (false, st, b) => (none, st, b)
  | (true, st, b) =>
  match WriteRegister st b BANK_3_ I2C_SLV0_CTRL_
      (I2C_SLV0_CTRL_EN_ ||| count) with
  | (false, st, b) => (none, st, b)
  | (true, st, b) =>
  ReadRegisters st b BANK_0_ EXT_SLV_SENS_DATA_00_ count

/-- `Icm20948::WriteAk09916Register`: program the auxiliary master for a
one-byte write, then read the register back through the same indirect
path; success is the read-back byte equalling the byte sent. -/
def WriteAk09916Register (st : St) (b : Bus) (reg data : Nat) :
    Bool × St × Bus :=
  match WriteRegister st b BANK_3_ I2C_SLV0_ADDR_ AK09916_I2C_ADDR_ with
  | (false, st, b) => (false, st, b)
  | (true, st, b) =>
  match WriteRegister st b BANK_3_ I2C_SLV0_REG_ reg with
  | (false, st, b) => (false, st, b)
  | (true, st, b) =>
  match WriteRegister st b BANK_3_ I2C_SLV0_D0_ data with
  | (false, st, b) => (false, st, b)
  | (true, st, b) =>
  match WriteRegister st b BANK_3_ I2C_SLV0_CTRL_
      (I2C_SLV0_CTRL_EN_ ||| 1) with
  | (false, st, b) => (false, st, b)
  | (true, st, b) =>
  match ReadAk09916Registers st b reg 1 with
  | (none, st, b) => (false, st, b)
  | (some vals, st, b) => (data % 256 == vals.getD 0 0, st, b)

/-- The staged accel scale of `Icm20948::ConfigAccelRange`'s validation
switch. -/
def accelScaleOf (range : Nat) : Option ℚ :=
  if range = ACCEL_RANGE_2G then some (2 / half16)
  else if range = ACCEL_RANGE_4G then some (4 / half16)
  else if range = ACCEL_RANGE_8G then some (8 / half16)
  else if range = ACCEL_RANGE_16G then some (16 / half16)
  else none

/-- The staged gyro scale of `Icm20948::ConfigGyroRange`'s validation
switch. -/
def gyroScaleOf (range : Nat) : Option ℚ :=
  if range = GYRO_RANGE_250DPS then some (250 / half16)
  else if range = GYRO_RANGE_500DPS then some (500 / half16)
  else if range = GYRO_RANGE_1000DPS then some (1000 / half16)
  else if range = GYRO_RANGE_2000DPS then some (2000 / half16)
  else none

/-- `Icm20948::ConfigAccelRange`.  Validation precedes any bus traffic;
the read before the read-modify-write has its result discarded. -/
def ConfigAccelRange (st : St) (b : Bus) (range : Nat) : Bool × St × Bus :=
  match accelScaleOf range with
  | none => (false, st, b)
  | some sc =>
    let st := { st with requestedAccelRange := range,
                        requestedAccelScale := sc }
    match ReadRegisters st b BANK_2_ ACCEL_CONFIG_ 1 with
    | (r, st, b) =>
    let st :=
      match r with
      | some vals => { st with dataBuf := updBuf st.dataBuf vals }
      | none => st
    let v := ((st.dataBuf 0 &&& 0xF9) |||
              ((st.requestedAccelRange <<< 1) % 256)) % 256
    let st := { st with dataBuf := setBuf0 st.dataBuf v }
    match WriteRegister st b BANK_2_ ACCEL_CONFIG_ v with
    | (false, st, b) => (false, st, b)
    | (true, st, b) =>
      (true, { st with accelRange := st.requestedAccelRange,
                       accelScale := st.requestedAccelScale }, b)

/-- `Icm20948::ConfigGyroRange`.  As in the source (line 213), the byte
written to `GYRO_CONFIG_1_` is composed from `requested_accel_range_`. -/
def ConfigGyroRange (st : St) (b : Bus) (range : Nat) : Bool × St × Bus :=
  match gyroScaleOf range with
  | none => (false, st, b)
  | some sc =>
    let st := { st with requestedGyroRange := range,
                        requestedGyroScale := sc }
    match ReadRegisters st b BANK_2_ GYRO_CONFIG_1_ 1 with
    | (r, st, b) =>
    let st :=
      match r with
      | some vals => { st with dataBuf := updBuf st.dataBuf vals }
      | none => st
    let v := ((st.dataBuf 0 &&& 0xF9) |||
              ((st.requestedAccelRange <<< 1) % 256)) % 256
    let st := { st with dataBuf := setBuf0 st.dataBuf v }
    match WriteRegister st b BANK_2_ GYRO_CONFIG_1_ v with
    | (false, st, b) => (false, st, b)
    | (true, st, b) =>
      (true, { st with gyroRange := st.requestedGyroRange,
                       gyroScale := st.requestedGyroScale }, b)

/-- Validation switch of `Icm20948::ConfigAccelDlpfBandwidth`. -/
def accelDlpfValid (dlpf : Nat) : Bool :=
  dlpf = ACCEL_DLPF_BANDWIDTH_246HZ ∨ dlpf = ACCEL_DLPF_BANDWIDTH_111HZ ∨
  dlpf = ACCEL_DLPF_BANDWIDTH_50HZ ∨ dlpf = ACCEL_DLPF_BANDWIDTH_23HZ ∨
  dlpf = ACCEL_DLPF_BANDWIDTH_11HZ ∨ dlpf = ACCEL_DLPF_BANDWIDTH_5HZ ∨
  dlpf = ACCEL_DLPF_BANDWIDTH_473HZ

/-- Validation switch of `Icm20948::ConfigGyroDlpfBandwidth`. -/
def gyroDlpfValid (dlpf : Nat) : Bool :=
  dlpf = GYRO_DLPF_BANDWIDTH_196HZ ∨ dlpf = GYRO_DLPF_BANDWIDTH_151HZ ∨
  dlpf = GYRO_DLPF_BANDWIDTH_119HZ ∨ dlpf = GYRO_DLPF_BANDWIDTH_51HZ ∨
  dlpf = GYRO_DLPF_BANDWIDTH_23HZ ∨ dlpf = GYRO_DLPF_BANDWIDTH_11HZ ∨
  dlpf = GYRO_DLPF_BANDWIDTH_5HZ ∨ dlpf = GYRO_DLPF_BANDWIDTH_361HZ

/-- Validation switch of `Icm20948::ConfigTempDlpfBandwidth`. -/
def tempDlpfValid (dlpf : Nat) : Bool :=
  dlpf = TEMP_DLPF_BANDWIDTH_7932HZ ∨ dlpf = TEMP_DLPF_BANDWIDTH_217HZ ∨
  dlpf = TEMP_DLPF_BANDWIDTH_123HZ ∨ dlpf = TEMP_DLPF_BANDWIDTH_65HZ ∨
  dlpf = TEMP_DLPF_BANDWIDTH_34HZ ∨ dlpf = TEMP_DLPF_BANDWIDTH_17HZ ∨
  dlpf = TEMP_DLPF_BANDWIDTH_8HZ

/-- `Icm20948::ConfigAccelDlpfBandwidth`. -/
def ConfigAccelDlpfBandwidth (st : St) (b : Bus) (dlpf : Nat) :
    Bool × St × Bus :=
  if ¬accelDlpfValid dlpf then (false, st, b)
  else
    let st := { st with accelRequestedDlpf := dlpf }
    match ReadRegisters st b BANK_2_ ACCEL_CONFIG_ 1 with
    | (r, st, b) =>
    let st :=
      match r with
      | some vals => { st with dataBuf := updBuf st.dataBuf vals }
      | none => st
    let v := ((((st.dataBuf 0 ||| 0x01) &&& 0xC7) |||
               ((st.accelRequestedDlpf <<< 3) % 256)) % 256)
    let st := { st with dataBuf := setBuf0 st.dataBuf v }
    match WriteRegister st b BANK_2_ ACCEL_CONFIG_ v with
    | (false, st, b) => (false, st, b)
    | (true, st, b) =>
      (true, { st with accelDlpfBandwidth := st.accelRequestedDlpf }, b)

/-- `Icm20948::ConfigGyroDlpfBandwidth` (reads `sizeof(data_buf_)` bytes,
as the source does). -/
def ConfigGyroDlpfBandwidth (st : St) (b : Bus) (dlpf : Nat) :
    Bool × St × Bus :=
  if ¬gyroDlpfValid dlpf then (false, st, b)
  else
    let st := { st with gyroRequestedDlpf := dlpf }
    match ReadRegisters st b BANK_2_ GYRO_CONFIG_1_ DATA_BUF_SIZE_ with
    | (r, st, b) =>
    let st :=
      match r with
      | some vals => { st with dataBuf := updBuf st.dataBuf vals }
      | none => st
    let v := ((((st.dataBuf 0 ||| 0x01) &&& 0xC7) |||
               ((st.gyroRequestedDlpf <<< 3) % 256)) % 256)
    let st := { st with dataBuf := setBuf0 st.dataBuf v }
    match WriteRegister st b BANK_2_ GYRO_CONFIG_1_ v with
    | (false, st, b) => (false, st, b)
    | (true, st, b) =>
      (true, { st with gyroDlpfBandwidth := st.gyroRequestedDlpf }, b)

/-- `Icm20948::ConfigTempDlpfBandwidth`: writes the staged value directly
(no read-modify-write on `TEMP_CONFIG_`). -/
def ConfigTempDlpfBandwidth (st : St) (b : Bus) (dlpf : Nat) :
    Bool × St × Bus :=
  if ¬tempDlpfValid dlpf then (false, st, b)
  else
    let st := { st with tempRequestedDlpf := dlpf }
    match WriteRegister st b BANK_2_ TEMP_CONFIG_ st.tempRequestedDlpf with
    | (false, st, b) => (false, st, b)
    | (true, st, b) =>
      (true, { st with tempDlpfBandwidth := st.tempRequestedDlpf }, b)

/-- `Icm20948::ConfigSrd`: divider writes, re-arm of the auxiliary
device's continuous-measurement mode, and one discard read of its
status+data block. -/
def ConfigSrd (st : St) (b : Bus) (srd : Nat) : Bool × St × Bus :=
  match WriteRegister st b BANK_2_ ACCEL_SMPLRT_DIV_2_ srd with
  | (false, st, b) => (false, st, b)
  | (true, st, b) =>
  match WriteRegister st b BANK_2_ GYRO_SMPLRT_DIV_ srd with
  | (false, st, b) => (false, st, b)
  | (true, st, b) =>
  match WriteAk09916Register st b AK09916_CNTL2_
      AK09916_CNTL2_CONT_MEAS_MODE1_ with
  | (false, st, b) => (false, st, b)
  | (true, st, b) =>
  match ReadAk09916Registers st b AK09916_ST1_ MAG_DATA_SIZE_ with
  | (none, st, b) => (false, st, b)
  | (some vals, st, b) =>
    (true, { st with magData := updBuf st.magData vals, srd := srd % 256 }, b)

/-- `Icm20948::Begin`.  The SPI interface-disable writes, the auxiliary
soft reset and the IMU reset all discard their results, exactly as the
source does. -/
def Begin (st : St) (b : Bus) : Bool × St × Bus :=
  let (st, b) :=
    if st.iface = Iface.spi then
      match WriteRegister st b BANK_0_ USER_CTRL_ USER_CTRL_I2C_IF_DIS_ with
      | (_, st, b) => (st, b)
    else (st, b)
  match WriteRegister st b BANK_0_ PWR_MGMT_1_ PWR_MGMT_1_CLKSEL_AUTO_ with
  | (false, st, b) => (false, st, b)
  | (true, st, b) =>
  match WriteRegister st b BANK_0_ USER_CTRL_ USER_CTRL_I2C_MST_EN_ with
  | (false, st, b) => (false, st, b)
  | (true, st, b) =>
  match WriteRegister st b BANK_3_ I2C_MST_CTRL_ I2C_MST_CTRL_400_KHZ_CLK_ with
  | (false, st, b) => (false, st, b)
  | (true, st, b) =>
  match WriteAk09916Register st b AK09916_CNTL3_ AK09916_CNTL3_SRST_ with
  | (_, st, b) =>
  match WriteRegister st b BANK_0_ PWR_MGMT_1_ PWR_MGMT_1_RESET_ with
  | (_, st, b) =>
  let (st, b) :=
    if st.iface = Iface.spi then
      match WriteRegister st b BANK_0_ USER_CTRL_ USER_CTRL_I2C_IF_DIS_ with
      | (_, st, b) => (st, b)
    else (st, b)
  match WriteRegister st b BANK_0_ PWR_MGMT_1_ PWR_MGMT_1_CLKSEL_AUTO_ with
  | (false, st, b) => (false, st, b)
  | (true, st, b) =>
  match ReadRegisters st b BANK_0_ WHO_AM_I_ 1 with
  | (none, st, b) => (false, st, b)
  | (some vals, st, b) =>
  let st := { st with whoAmI := vals.getD 0 st.whoAmI }
  if st.whoAmI ≠ WHOAMI_ICM20649_ then (false, st, b)
  else
  match WriteRegister st b BANK_0_ USER_CTRL_ USER_CTRL_I2C_MST_EN_ with
  | (false, st, b) => (false, st, b)
  | (true, st, b) =>
  match WriteRegister st b BANK_3_ I2C_MST_CTRL_ I2C_MST_CTRL_400_KHZ_CLK_ with
  | (false, st, b) => (false, st, b)
  | (true, st, b) =>
  match ReadAk09916Registers st b AK09916_WIA2_ 1 with
  | (none, st, b) => (false, st, b)
  | (some vals, st, b) =>
  let st := { st with whoAmI := vals.getD 0 st.whoAmI }
  if st.whoAmI ≠ WHOAMI_AK09916_ then (false, st, b)
  else
  match WriteRegister st b BANK_2_ ODR_ALIGN_EN_ ODR_ALIGN_EN_ALIGN_ENABLE_ with
  | (false, st, b) => (false, st, b)
  | (true, st, b) =>
  match ConfigAccelRange st b ACCEL_RANGE_16G with
  | (false, st, b) => (false, st, b)
  | (true, st, b) =>
  match ConfigGyroRange st b GYRO_RANGE_2000DPS with
  | (false, st, b) => (false, st, b)
  | (true, st, b) =>
  match ConfigAccelDlpfBandwidth st b ACCEL_DLPF_BANDWIDTH_473HZ with
  | (false, st, b) => (false, st, b)
  | (true, st, b) =>
  match ConfigGyroDlpfBandwidth st b GYRO_DLPF_BANDWIDTH_361HZ with
  | (false, st, b) => (false, st, b)
  | (true, st, b) =>
  match ConfigTempDlpfBandwidth st b TEMP_DLPF_BANDWIDTH_7932HZ with
  | (false, st, b) => (false, st, b)
  | (true, st, b) =>
  match ConfigSrd st b 0 with
  | (false, st, b) => (false, st, b)
  | (true, st, b) => (true, st, b)

/-- Unpacking and scaling step of `Icm20948::Read` (lines 409-438): sign
extension of the big-endian IMU fields, little-endian magnetometer
fields, data-ready/overflow validity logic, and retention of the previous
scaled magnetometer sample when the new-data flag is false. -/
def readUnpack (st : St) : St :=
  let a0 := be16 (st.dataBuf 0) (st.dataBuf 1)
  let a1 := be16 (st.dataBuf 2) (st.dataBuf 3)
  let a2 := be16 (st.dataBuf 4) (st.dataBuf 5)
  let g0 := be16 (st.dataBuf 6) (st.dataBuf 7)
  let g1 := be16 (st.dataBuf 8) (st.dataBuf 9)
  let g2 := be16 (st.dataBuf 10) (st.dataBuf 11)
  let t0 := be16 (st.dataBuf 12) (st.dataBuf 13)
  let drdy := (st.dataBuf 14 &&& AK09916_ST1_DRDY_) != 0
  let m0 := be16 (st.dataBuf 16) (st.dataBuf 15)
  let m1 := be16 (st.dataBuf 18) (st.dataBuf 17)
  let m2 := be16 (st.dataBuf 20) (st.dataBuf 19)
  let hofl := (st.dataBuf 22 &&& AK09916_ST2_HOFL_) != 0
  let newMag := if hofl then false else drdy
  { st with
    accelCnts := [a0, a1, a2],
    gyroCnts := [g0, g1, g2],
    magCnts := [m0, m1, m2],
    tempCnts := t0,
    newMagData := newMag,
    magSensorOverflow := hofl,
    accel := [(a1 : ℚ) * st.accelScale * G_MPS2_,
              (a0 : ℚ) * st.accelScale * G_MPS2_,
              (a2 : ℚ) * st.accelScale * (-1) * G_MPS2_],
    temp := ((t0 : ℚ) - 21) / TEMP_SCALE_ + 21,
    gyro := [(g1 : ℚ) * st.gyroScale * DEG2RAD_,
             (g0 : ℚ) * st.gyroScale * DEG2RAD_,
             (g2 : ℚ) * st.gyroScale * (-1) * DEG2RAD_],
    mag := if newMag then
             [(-1) * ((m1 : ℚ) * MAG_SCALE_),
              (m0 : ℚ) * MAG_SCALE_,
              (m2 : ℚ) * MAG_SCALE_]
           else st.mag }

/-- `Icm20948::Read`.  The burst read of the data registers discards its
result, exactly as the source does. -/
def Read (st : St) (b : Bus) : Bool × St × Bus :=
  let st := { st with newImuData := false }
  match ReadRegisters st b BANK_0_ INT_STATUS_1_ 1 with
  | (none, st, b) => (false, st, b)
  | (some vals, st, b) =>
  let st := { st with dataBuf := updBuf st.dataBuf vals }
  let ready := (st.dataBuf 0 &&& RAW_DATA_RDY_INT_) != 0
  let st := { st with newImuData := ready }
  if ¬ready then (false, st, b)
  else
  match ReadRegisters st b BANK_0_ ACCEL_XOUT_H DATA_BUF_SIZE_ with
  | (r, st, b) =>
  let st :=
    match r with
    | some vals => { st with dataBuf := updBuf st.dataBuf vals }
    | none => st
  (true, readUnpack st, b)

end Icm20948

namespace Mpu9250

/-- `ACCEL_OUT` register. -/
def ACCEL_OUT : Nat := 0x3B
/-- `GYRO_OUT` register. -/
def GYRO_OUT : Nat := 0x43
/-- `ACCEL_CONFIG` register. -/
def ACCEL_CONFIG : Nat := 0x1C
/-- `ACCEL_FS_SEL_2G` value. -/
def ACCEL_FS_SEL_2G : Nat := 0x00
/-- `ACCEL_FS_SEL_4G` value. -/
def ACCEL_FS_SEL_4G : Nat := 0x08
/-- `ACCEL_FS_SEL_8G` value. -/
def ACCEL_FS_SEL_8G : Nat := 0x10
/-- `ACCEL_FS_SEL_16G` value. -/
def ACCEL_FS_SEL_16G : Nat := 0x18
/-- `ACCEL_CONFIG2` register. -/
def ACCEL_CONFIG2 : Nat := 0x1D
/-- `ACCEL_DLPF_184` value. -/
def ACCEL_DLPF_184 : Nat := 0x01
/-- `ACCEL_DLPF_92` value. -/
def ACCEL_DLPF_92 : Nat := 0x02
/-- `ACCEL_DLPF_41` value. -/
def ACCEL_DLPF_41 : Nat := 0x03
/-- `ACCEL_DLPF_20` value. -/
def ACCEL_DLPF_20 : Nat := 0x04
/-- `ACCEL_DLPF_10` value. -/
def ACCEL_DLPF_10 : Nat := 0x05
/-- `ACCEL_DLPF_5` value. -/
def ACCEL_DLPF_5 : Nat := 0x06
/-- `GYRO_CONFIG` register. -/
def GYRO_CONFIG : Nat := 0x1B
/-- `GYRO_FS_SEL_250DPS` value. -/
def GYRO_FS_SEL_250DPS : Nat := 0x00
/-- `GYRO_FS_SEL_500DPS` value. -/
def GYRO_FS_SEL_500DPS : Nat := 0x08
/-- `GYRO_FS_SEL_1000DPS` value. -/
def GYRO_FS_SEL_1000DPS : Nat := 0x10
/-- `GYRO_FS_SEL_2000DPS` value. -/
def GYRO_FS_SEL_2000DPS : Nat := 0x18
/-- `CONFIG` register (holds the gyro DLPF field). -/
def CONFIG : Nat := 0x1A
/-- `GYRO_DLPF_184` value. -/
def GYRO_DLPF_184 : Nat := 0x01
/-- `GYRO_DLPF_92` value. -/
def GYRO_DLPF_92 : Nat := 0x02
/-- `GYRO_DLPF_41` value. -/
def GYRO_DLPF_41 : Nat := 0x03
/-- `GYRO_DLPF_20` value. -/
def GYRO_DLPF_20 : Nat := 0x04
/-- `GYRO_DLPF_10` value. -/
def GYRO_DLPF_10 : Nat := 0x05
/-- `GYRO_DLPF_5` value. -/
def GYRO_DLPF_5 : Nat := 0x06
/-- `SMPDIV` sample-rate-divider register. -/
def SMPDIV : Nat := 0x19
/-- `INT_PIN_CFG` register. -/
def INT_PIN_CFG : Nat := 0x37
/-- `INT_ENABLE` register. -/
def INT_ENABLE : Nat := 0x38
/-- `PWR_MGMNT_1` register. -/
def PWR_MGMNT_1 : Nat := 0x6B
/-- `CLOCK_SEL_PLL` value. -/
def CLOCK_SEL_PLL : Nat := 0x01
/-- Gravity constant `G` from `MPU9250.h` (9.807, exact rational). -/
def G : ℚ := 9807 / 1000

/-- The mutable member state of an `MPU9250` instance: the two committed
scale factors (`_accelScale`, `_gyroScale`). -/
structure St where
  accelScale : ℚ
  gyroScale : ℚ

/-- `MPU9250::writeRegister`: a fire-and-forget I2C write; the source
never checks `endTransmission`, so the success flag is discarded. -/
def writeRegister (b : Bus) (subAddress data : Nat) : Bus :=
  (busWrite b subAddress data).2

/-- `MPU9250::begin(accelRange, gyroRange)`: unconditional clock-source
write, then one string-compare block per supported range; an unmatched
string silently configures nothing for that sensor.  The committed accel
scale folds the gravity constant in: `G * full_scale / 32767.5`. -/
def begin (st : St) (b : Bus) (accelRange gyroRange : String) : St × Bus :=
  let b := writeRegister b PWR_MGMNT_1 CLOCK_SEL_PLL
  let (st, b) :=
    if accelRange = "2G" then
      ({ st with accelScale := G * 2 / half16 },
       writeRegister b ACCEL_CONFIG ACCEL_FS_SEL_2G)
    else (st, b)
  let (st, b) :=
    if accelRange = "4G" then
      ({ st with accelScale := G * 4 / half16 },
       writeRegister b ACCEL_CONFIG ACCEL_FS_SEL_4G)
    else (st, b)
  let (st, b) :=
    if accelRange = "8G" then
      ({ st with accelScale := G * 8 / half16 },
       writeRegister b ACCEL_CONFIG ACCEL_FS_SEL_8G)
    else (st, b)
  let (st, b) :=
    if accelRange = "16G" then
      ({ st with accelScale := G * 16 / half16 },
       writeRegister b ACCEL_CONFIG ACCEL_FS_SEL_16G)
    else (st, b)
  let (st, b) :=
    if gyroRange = "250DPS" then
      ({ st with gyroScale := 250 / half16 },
       writeRegister b GYRO_CONFIG GYRO_FS_SEL_250DPS)
    else (st, b)
  let (st, b) :=
    if gyroRange = "500DPS" then
      ({ st with gyroScale := 500 / half16 },
       writeRegister b GYRO_CONFIG GYRO_FS_SEL_500DPS)
    else (st, b)
  let (st, b) :=
    if gyroRange = "1000DPS" then
      ({ st with gyroScale := 1000 / half16 },
       writeRegister b GYRO_CONFIG GYRO_FS_SEL_1000DPS)
    else (st, b)
  let (st, b) :=
    if gyroRange = "2000DPS" then
      ({ st with gyroScale := 2000 / half16 },
       writeRegister b GYRO_CONFIG GYRO_FS_SEL_2000DPS)
    else (st, b)
  (st, b)

/-- The DLPF-selection block of `MPU9250::setFilt` (lines 70-98): one
absolute register write pair per recognised bandwidth string, no
read-modify-write. -/
def setFiltDlpf (b : Bus) (bandwidth : String) : Bus :=
  let b :=
    if bandwidth = "184HZ" then
      writeRegister (writeRegister b ACCEL_CONFIG2 ACCEL_DLPF_184)
        CONFIG GYRO_DLPF_184
    else b
  let b :=
    if bandwidth = "92HZ" then
      writeRegister (writeRegister b ACCEL_CONFIG2 ACCEL_DLPF_92)
        CONFIG GYRO_DLPF_92
    else b
  let b :=
    if bandwidth = "41HZ" then
      writeRegister (writeRegister b ACCEL_CONFIG2 ACCEL_DLPF_41)
        CONFIG GYRO_DLPF_41
    else b
  let b :=
    if bandwidth = "20HZ" then
      writeRegister (writeRegister b ACCEL_CONFIG2 ACCEL_DLPF_20)
        CONFIG GYRO_DLPF_20
    else b
  let b :=
    if bandwidth = "10HZ" then
      writeRegister (writeRegister b ACCEL_CONFIG2 ACCEL_DLPF_10)
        CONFIG GYRO_DLPF_10
    else b
  let b :=
    if bandwidth = "5HZ" then
      writeRegister (writeRegister b ACCEL_CONFIG2 ACCEL_DLPF_5)
        CONFIG GYRO_DLPF_5
    else b
  b

/-- `MPU9250::setFilt(bandwidth, frequency)`: DLPF writes, then
`SRD = 1000 / frequency - 1` truncated to a byte and written to `SMPDIV`,
then the interrupt setup writes.  The C++ division `ISR / frequency` is
undefined for `frequency == 0`; the embedding guards that division and
returns `none` exactly when the divisor is zero. -/
def setFilt (st : St) (b : Bus) (bandwidth : String) (frequency : Nat) :
    Option (St × Bus) :=
  let b := setFiltDlpf b bandwidth
  if frequency = 0 then none
  else
    let srd := (1000 / frequency - 1) % 256
    let b := writeRegister b SMPDIV srd
    let b := writeRegister b INT_PIN_CFG 0x00
    let b := writeRegister b INT_ENABLE 0x01
    some (st, b)

end Mpu9250

/-- A transport environment with empty history that accepts every
transaction and answers every read byte with `v`. -/
def constBus (v : Nat) : Bus :=
  { ok := fun _ _ => true, resp := fun _ _ _ => v, trace := [] }

namespace Icm20649

/-- A concrete post-`Config` driver state (I2C mode, cached bank 0,
everything else zeroed), used as the starting point of concrete runs. -/
def initSt : St :=
  { iface := Iface.i2c
    currentBank := 0
    whoAmI := 0
    requestedAccelRange := 0
    requestedAccelScale := 0
    requestedGyroRange := 0
    requestedGyroScale := 0
    accelRange := 0
    accelScale := 0
    gyroRange := 0
    gyroScale := 0
    accelRequestedDlpf := 0
    accelDlpfBandwidth := 0
    gyroRequestedDlpf := 0
    gyroDlpfBandwidth := 0
    srd := 0
    dataBuf := fun _ => 0
    newImuData := false
    accelCnts := [0, 0, 0]
    gyroCnts := [0, 0, 0]
    tempCnts := 0
    accel := [0, 0, 0]
    gyro := [0, 0, 0]
    temp := 0 }

end Icm20649

namespace Icm20948

/-- A concrete post-`Config` driver state (I2C mode, cached bank 0,
everything else zeroed). -/
def initSt : St :=
  { iface := Iface.i2c
    currentBank := 0
    whoAmI := 0
    requestedAccelRange := 0
    requestedAccelScale := 0
    requestedGyroRange := 0
    requestedGyroScale := 0
    accelRange := 0
    accelScale := 0
    gyroRange := 0
    gyroScale := 0
    accelRequestedDlpf := 0
    accelDlpfBandwidth := 0
    gyroRequestedDlpf := 0
    gyroDlpfBandwidth := 0
    tempRequestedDlpf := 0
    tempDlpfBandwidth := 0
    srd := 0
    dataBuf := fun _ => 0
    magData := fun _ => 0
    newImuData := false
    newMagData := false
    magSensorOverflow := false
    accelCnts := [0, 0, 0]
    gyroCnts := [0, 0, 0]
    magCnts := [0, 0, 0]
    tempCnts := 0
    accel := [0, 0, 0]
    gyro := [0, 0, 0]
    mag := [0, 0, 0]
    temp := 0 }

end Icm20948

namespace Mpu9250

/-- A concrete initial `MPU9250` state with both scales zeroed. -/
def initSt : St := { accelScale := 0, gyroScale := 0 }

end Mpu9250

/-- C1: the claim states that `ConfigGyroRange` composes the gyro
configuration byte from the gyro path's own staged range field.  The code
instead ORs in `requested_accel_range_ << 1` (icm20649.cpp line 198,
icm20948.cpp line 213).  Concretely: after staging the highest accel
range (field value 3) and then requesting the lowest gyro range (field
value 0), the byte written to the gyro configuration register carries
field value `3 <<< 1 = 6`, not `0 <<< 1 = 0`, on both banked variants.
This evaluates the embedded code at that failing input, exhibiting the
divergence the claim (and the specification's own design note) describes
as the intended behaviour. -/
theorem c1_gyro_config_uses_accel_staged_range :
    (lastWr (Icm20649.ConfigGyroRange
        (Icm20649.ConfigAccelRange Icm20649.initSt (constBus 0)
          Icm20649.ACCEL_RANGE_30G).2.1
        (Icm20649.ConfigAccelRange Icm20649.initSt (constBus 0)
          Icm20649.ACCEL_RANGE_30G).2.2
        Icm20649.GYRO_RANGE_500DPS).2.2.trace Icm20649.GYRO_CONFIG_1_ =
      some (Icm20649.ACCEL_RANGE_30G <<< 1)) ∧
    ((Icm20649.ConfigGyroRange
        (Icm20649.ConfigAccelRange Icm20649.initSt (constBus 0)
          Icm20649.ACCEL_RANGE_30G).2.1
        (Icm20649.ConfigAccelRange Icm20649.initSt (constBus 0)
          Icm20649.ACCEL_RANGE_30G).2.2
        Icm20649.GYRO_RANGE_500DPS).2.1.requestedGyroRange =
      Icm20649.GYRO_RANGE_500DPS) ∧
    Icm20649.ACCEL_RANGE_30G <<< 1 ≠ Icm20649.GYRO_RANGE_500DPS <<< 1 ∧
    (lastWr (Icm20948.ConfigGyroRange
        (Icm20948.ConfigAccelRange Icm20948.initSt (constBus 0)
          Icm20948.ACCEL_RANGE_16G).2.1
        (Icm20948.ConfigAccelRange Icm20948.initSt (constBus 0)
          Icm20948.ACCEL_RANGE_16G).2.2
        Icm20948.GYRO_RANGE_250DPS).2.2.trace Icm20948.GYRO_CONFIG_1_ =
      some (Icm20948.ACCEL_RANGE_16G <<< 1)) ∧
    ((Icm20948.ConfigGyroRange
        (Icm20948.ConfigAccelRange Icm20948.initSt (constBus 0)
          Icm20948.ACCEL_RANGE_16G).2.1
        (Icm20948.ConfigAccelRange Icm20948.initSt (constBus 0)
          Icm20948.ACCEL_RANGE_16G).2.2
        Icm20948.GYRO_RANGE_250DPS).2.1.requestedGyroRange =
      Icm20948.GYRO_RANGE_250DPS) ∧
    Icm20948.ACCEL_RANGE_16G <<< 1 ≠ Icm20948.GYRO_RANGE_250DPS <<< 1 := by
  refine ⟨by decide, by decide, by decide, by decide, by decide, by decide⟩

/-- C2 counterexample: the claim asserts every committed scale factor is
`full_scale / 32767.5`, in particular `30.0 / 32767.5` for the 30G accel
setting.  The ICM20649 code commits `32.0f / 32767.5f` for
`ACCEL_RANGE_30G` (icm20649.cpp line 146), so the configuration succeeds
yet the committed scale differs from `30 / 32767.5`. -/
theorem c2_counterexample_30g_scale :
    (Icm20649.ConfigAccelRange Icm20649.initSt (constBus 0)
      Icm20649.ACCEL_RANGE_30G).1 = true ∧
    (Icm20649.ConfigAccelRange Icm20649.initSt (constBus 0)
      Icm20649.ACCEL_RANGE_30G).2.1.accelScale ≠ 30 / half16 := by
  refine ⟨rfl, ?_⟩
  show (32 : ℚ) / half16 ≠ 30 / half16
  norm_num [half16]

/-- C2 (amended): the committed scale factor equals
`full_scale / 32767.5` for every supported range enumeration on both
banked variants and for the MPU9250 gyro path, with two exceptions forced
by the code: the ICM20649 30G accel setting commits `32.0 / 32767.5`, and
the MPU9250 accel path folds the gravity constant in, committing
`G * full_scale / 32767.5`. -/
theorem c2_committed_scale_factors :
    (Icm20649.ConfigAccelRange Icm20649.initSt (constBus 0)
      Icm20649.ACCEL_RANGE_4G).2.1.accelScale = 4 / half16 ∧
    (Icm20649.ConfigAccelRange Icm20649.initSt (constBus 0)
      Icm20649.ACCEL_RANGE_8G).2.1.accelScale = 8 / half16 ∧
    (Icm20649.ConfigAccelRange Icm20649.initSt (constBus 0)
      Icm20649.ACCEL_RANGE_16G).2.1.accelScale = 16 / half16 ∧
    (Icm20649.ConfigAccelRange Icm20649.initSt (constBus 0)
      Icm20649.ACCEL_RANGE_30G).2.1.accelScale = 32 / half16 ∧
    (Icm20649.ConfigGyroRange Icm20649.initSt (constBus 0)
      Icm20649.GYRO_RANGE_500DPS).2.1.gyroScale = 500 / half16 ∧
    (Icm20649.ConfigGyroRange Icm20649.initSt (constBus 0)
      Icm20649.GYRO_RANGE_1000DPS).2.1.gyroScale = 1000 / half16 ∧
    (Icm20649.ConfigGyroRange Icm20649.initSt (constBus 0)
      Icm20649.GYRO_RANGE_2000DPS).2.1.gyroScale = 2000 / half16 ∧
    (Icm20649.ConfigGyroRange Icm20649.initSt (constBus 0)
      Icm20649.GYRO_RANGE_4000DPS).2.1.gyroScale = 4000 / half16 ∧
    (Icm20948.ConfigAccelRange Icm20948.initSt (constBus 0)
      Icm20948.ACCEL_RANGE_2G).2.1.accelScale = 2 / half16 ∧
    (Icm20948.ConfigAccelRange Icm20948.initSt (constBus 0)
      Icm20948.ACCEL_RANGE_4G).2.1.accelScale = 4 / half16 ∧
    (Icm20948.ConfigAccelRange Icm20948.initSt (constBus 0)
      Icm20948.ACCEL_RANGE_8G).2.1.accelScale = 8 / half16 ∧
    (Icm20948.ConfigAccelRange Icm20948.initSt (constBus 0)
      Icm20948.ACCEL_RANGE_16G).2.1.accelScale = 16 / half16 ∧
    (Icm20948.ConfigGyroRange Icm20948.initSt (constBus 0)
      Icm20948.GYRO_RANGE_250DPS).2.1.gyroScale = 250 / half16 ∧
    (Icm20948.ConfigGyroRange Icm20948.initSt (constBus 0)
      Icm20948.GYRO_RANGE_500DPS).2.1.gyroScale = 500 / half16 ∧
    (Icm20948.ConfigGyroRange Icm20948.initSt (constBus 0)
      Icm20948.GYRO_RANGE_1000DPS).2.1.gyroScale = 1000 / half16 ∧
    (Icm20948.ConfigGyroRange Icm20948.initSt (constBus 0)
      Icm20948.GYRO_RANGE_2000DPS).2.1.gyroScale = 2000 / half16 ∧
    (Mpu9250.begin Mpu9250.initSt (constBus 0) "2G" "250DPS").1.accelScale =
      Mpu9250.G * 2 / half16 ∧
    (Mpu9250.begin Mpu9250.initSt (constBus 0) "4G" "250DPS").1.accelScale =
      Mpu9250.G * 4 / half16 ∧
    (Mpu9250.begin Mpu9250.initSt (constBus 0) "8G" "250DPS").1.accelScale =
      Mpu9250.G * 8 / half16 ∧
    (Mpu9250.begin Mpu9250.initSt (constBus 0) "16G" "250DPS").1.accelScale =
      Mpu9250.G * 16 / half16 ∧
    (Mpu9250.begin Mpu9250.initSt (constBus 0) "2G" "250DPS").1.gyroScale =
      250 / half16 ∧
    (Mpu9250.begin Mpu9250.initSt (constBus 0) "2G" "500DPS").1.gyroScale =
      500 / half16 ∧
    (Mpu9250.begin Mpu9250.initSt (constBus 0) "2G" "1000DPS").1.gyroScale =
      1000 / half16 ∧
    (Mpu9250.begin Mpu9250.initSt (constBus 0) "2G" "2000DPS").1.gyroScale =
      2000 / half16 :=
  ⟨rfl, rfl, rfl, rfl, rfl, rfl, rfl, rfl, rfl, rfl, rfl, rfl, rfl, rfl,
   rfl, rfl, rfl, rfl, rfl, rfl, rfl, rfl, rfl, rfl⟩

/-- C10: `MPU9250::setFilt` computes `SRD = 1000 / frequency - 1` with an
unguarded integer division by the caller-supplied frequency byte,
truncated to 8 bits when written to `SMPDIV`.  The guarded embedding
returns `none` exactly at `frequency = 0` (the reachable division-error
branch), and for every nonzero frequency byte it is defined and writes
`(1000 / frequency - 1) % 256` to the divider register. -/
theorem c10_setFilt_srd_division (st : Mpu9250.St) (f : Nat)
    (h0 : f ≠ 0) (hf : f < 256) :
    Mpu9250.setFilt st (constBus 0) "184HZ" 0 = none ∧
    (Mpu9250.setFilt st (constBus 0) "184HZ" f).map
        (fun p => lastWr p.2.trace Mpu9250.SMPDIV) =
      some (some ((1000 / f - 1) % 256)) := by
  refine ⟨rfl, ?_⟩
  simp only [Mpu9250.setFilt, if_neg h0]
  simp [Mpu9250.setFiltDlpf, Mpu9250.writeRegister, busWrite, lastWr,
    List.findSome?, Mpu9250.SMPDIV, Mpu9250.INT_PIN_CFG, Mpu9250.INT_ENABLE,
    constBus]

/-- Witness for C10 at the concrete frequency byte 100: the hypotheses
hold and the divider byte written is `1000 / 100 - 1 = 9`. -/
theorem c10_setFilt_srd_division_witness :
    (100 : Nat) ≠ 0 ∧ (100 : Nat) < 256 ∧
    (Mpu9250.setFilt Mpu9250.initSt (constBus 0) "184HZ" 0 = none ∧
     (Mpu9250.setFilt Mpu9250.initSt (constBus 0) "184HZ" 100).map
         (fun p => lastWr p.2.trace Mpu9250.SMPDIV) =
       some (some ((1000 / 100 - 1) % 256))) :=
  ⟨by decide, by decide,
   c10_setFilt_srd_division Mpu9250.initSt 100 (by decide) (by decide)⟩

/-- C7: bank-select caching on the multi-bank variants.  For the
ICM20649's `SetBank`: requesting the cached bank is a no-op (no bus
transaction, success); requesting a different bank issues exactly one
bank-select write; on success the cached bank becomes the requested bank
and an immediately repeated select of the same bank issues no further
transaction (so two consecutive selects produce exactly one bus write);
on transport failure the cached bank is unchanged and failure is
returned.  For the ICM20948, whose bank switching is inlined in
`WriteRegister`: a matching cached bank issues only the data write, a
differing bank issues the bank-select write first, updating the cache on
success and aborting with the cache unchanged on failure. -/
theorem c7_bank_select_caching :
    (∀ (st : Icm20649.St) (b : Bus) (bank : Nat),
      (bank = st.currentBank → Icm20649.SetBank st b bank = (true, st, b)) ∧
      (bank ≠ st.currentBank →
        (Icm20649.SetBank st b bank).2.2.trace =
          b.trace ++ [Txn.wr Icm20649.REG_BANK_SEL_ ((bank <<< 4) % 256)] ∧
        (b.ok b.trace (Txn.wr Icm20649.REG_BANK_SEL_ ((bank <<< 4) % 256)) =
            true →
          (Icm20649.SetBank st b bank).1 = true ∧
          (Icm20649.SetBank st b bank).2.1 = { st with currentBank := bank } ∧
          Icm20649.SetBank (Icm20649.SetBank st b bank).2.1
              (Icm20649.SetBank st b bank).2.2 bank =
            (true, (Icm20649.SetBank st b bank).2.1,
              (Icm20649.SetBank st b bank).2.2)) ∧
        (b.ok b.trace (Txn.wr Icm20649.REG_BANK_SEL_ ((bank <<< 4) % 256)) =
            false →
          (Icm20649.SetBank st b bank).1 = false ∧
          (Icm20649.SetBank st b bank).2.1 = st))) ∧
    (∀ (st : Icm20948.St) (b : Bus) (bank reg data : Nat),
      (bank = st.currentBank →
        (Icm20948.WriteRegister st b bank reg data).2.2.trace =
          b.trace ++ [Txn.wr reg (data % 256)] ∧
        (Icm20948.WriteRegister st b bank reg data).2.1 = st) ∧
      (bank ≠ st.currentBank →
        (b.ok b.trace (Txn.wr Icm20948.REG_BANK_SEL_ ((bank <<< 4) % 256)) =
            true →
          (Icm20948.WriteRegister st b bank reg data).2.2.trace =
            b.trace ++ [Txn.wr Icm20948.REG_BANK_SEL_ ((bank <<< 4) % 256),
              Txn.wr reg (data % 256)] ∧
          (Icm20948.WriteRegister st b bank reg data).2.1 =
            { st with currentBank := bank }) ∧
        (b.ok b.trace (Txn.wr Icm20948.REG_BANK_SEL_ ((bank <<< 4) % 256)) =
            false →
          (Icm20948.WriteRegister st b bank reg data).1 = false ∧
          (Icm20948.WriteRegister st b bank reg data).2.1 = st ∧
          (Icm20948.WriteRegister st b bank reg data).2.2.trace =
            b.trace ++ [Txn.wr Icm20948.REG_BANK_SEL_ ((bank <<< 4) % 256)]))) := by
  constructor
  · intro st b bank
    refine ⟨fun he => ?_,
      fun hne => ⟨?_, fun hok => ⟨?_, ?_, ?_⟩, fun hbad => ⟨?_, ?_⟩⟩⟩
    · simp [Icm20649.SetBank, he]
    · simp only [Icm20649.SetBank, busWrite, if_pos hne]
      split <;> rfl
    · simp [Icm20649.SetBank, hne, busWrite, hok]
    · simp [Icm20649.SetBank, hne, busWrite, hok]
    · simp [Icm20649.SetBank, hne, busWrite, hok]
    · simp [Icm20649.SetBank, hne, busWrite, hbad]
    · simp [Icm20649.SetBank, hne, busWrite, hbad]
  · intro st b bank reg data
    refine ⟨fun he => ⟨?_, ?_⟩,
      fun hne => ⟨fun hok => ⟨?_, ?_⟩, fun hbad => ⟨?_, ?_, ?_⟩⟩⟩
    · simp [Icm20948.WriteRegister, he, busWrite]
    · simp [Icm20948.WriteRegister, he, busWrite]
    · simp [Icm20948.WriteRegister, hne, busWrite, hok]
    · simp [Icm20948.WriteRegister, hne, busWrite, hok]
    · simp [Icm20948.WriteRegister, hne, busWrite, hbad]
    · simp [Icm20948.WriteRegister, hne, busWrite, hbad]
    · simp [Icm20948.WriteRegister, hne, busWrite, hbad]

/-- Witness for C7: selecting the already-cached bank 0 from the initial
state issues no transaction, and selecting bank 2 issues exactly the one
bank-select write. -/
theorem c7_bank_select_caching_witness :
    Icm20649.SetBank Icm20649.initSt (constBus 0) 0 =
      (true, Icm20649.initSt, constBus 0) ∧
    (Icm20649.SetBank Icm20649.initSt (constBus 0) 2).2.2.trace =
      (constBus 0).trace ++ [Txn.wr Icm20649.REG_BANK_SEL_ ((2 <<< 4) % 256)] :=
  ⟨(c7_bank_select_caching.1 Icm20649.initSt (constBus 0) 0).1 rfl,
   ((c7_bank_select_caching.1 Icm20649.initSt (constBus 0) 2).2
     (by decide)).1⟩

/-- C9: against a transport in which every transaction succeeds and the
external-sensor data window answers byte `v`, the indirect magnetometer
write `WriteAk09916Register` returns success exactly when the read-back
byte equals the byte sent, and the transactions it issues do not depend
on the read-back value — a mismatch only flips the returned flag, with no
retry traffic. -/
theorem c9_ak09916_write_verify (st : Icm20948.St) (reg data v w : Nat)
    (hd : data < 256) (hv : v < 256) :
    ((Icm20948.WriteAk09916Register { st with currentBank := 3 }
        (constBus v) reg data).1 = true ↔ data = v) ∧
    (Icm20948.WriteAk09916Register { st with currentBank := 3 }
        (constBus v) reg data).2.2.trace =
      (Icm20948.WriteAk09916Register { st with currentBank := 3 }
        (constBus w) reg data).2.2.trace := by
  have h1 : (Icm20948.WriteAk09916Register { st with currentBank := 3 }
      (constBus v) reg data).1 = (data % 256 == v % 256) := rfl
  constructor
  · rw [h1, Nat.mod_eq_of_lt hd, Nat.mod_eq_of_lt hv]
    simp
  · rfl

/-- Witness for C9 at a concrete matching pair (read-back 5 equals the
sent byte 5) and a differing alternative response 7. -/
theorem c9_ak09916_write_verify_witness :
    ((Icm20948.WriteAk09916Register
        { Icm20948.initSt with currentBank := 3 }
        (constBus 5) Icm20948.AK09916_CNTL2_ 5).1 = true ↔ (5 : Nat) = 5) ∧
    (Icm20948.WriteAk09916Register { Icm20948.initSt with currentBank := 3 }
        (constBus 5) Icm20948.AK09916_CNTL2_ 5).2.2.trace =
      (Icm20948.WriteAk09916Register { Icm20948.initSt with currentBank := 3 }
        (constBus 7) Icm20948.AK09916_CNTL2_ 5).2.2.trace :=
  c9_ak09916_write_verify Icm20948.initSt Icm20948.AK09916_CNTL2_ 5 5 7
    (by decide) (by decide)

/-- C3 counterexample: the claim says an invalid configuration value is
rejected with **no register write on the device**.  On the ICM20649,
`ConfigAccelRange` calls `SetBank(2)` before validating its argument, so
from a state whose cached bank is 0 an invalid range value (9) still
issues a bank-select bus write; the call then returns failure with the
committed configuration unchanged. -/
theorem c3_counterexample_bank_write_before_validation :
    Icm20649.accelScaleOf 9 = none ∧
    (Icm20649.ConfigAccelRange Icm20649.initSt (constBus 0) 9).1 = false ∧
    (Icm20649.ConfigAccelRange Icm20649.initSt (constBus 0) 9).2.2.trace =
      [Txn.wr Icm20649.REG_BANK_SEL_ 32] ∧
    (Icm20649.ConfigAccelRange Icm20649.initSt (constBus 0) 9).2.2.trace ≠
      [] := by
  refine ⟨by decide, by decide, by decide, by decide⟩

/-- C3 (amended): a configuration call with a value outside the supported
enumeration returns failure and leaves every piece of committed
configuration state (ranges, scale factors, DLPF settings, sample-rate
divider) unchanged, and writes no configuration register.  On the
ICM20948 no bus transaction at all is issued and the driver state is
byte-for-byte unchanged.  On the ICM20649 the only possible bus
transaction is the bank-select write issued before validation, and the
only possible state change is the cached bank.  The MPU9250's
string-keyed operations return no failure indication at all: `begin` with
unrecognised range strings performs only the clock-source write and
leaves both scales unchanged, while `setFilt` with an unrecognised
bandwidth string writes no DLPF register but still writes the
sample-rate-divider and interrupt registers. -/
theorem c3_invalid_config_preserves_state (st : Icm20649.St)
    (s8 : Icm20948.St) (sm : Mpu9250.St) (b : Bus)
    (iva ivg ivad ivgd jva jvg jvad jvgd jvtd f : Nat) (aStr gStr bw : String)
    (hva : Icm20649.accelScaleOf iva = none)
    (hvg : Icm20649.gyroScaleOf ivg = none)
    (hvad : Icm20649.accelDlpfValid ivad = false)
    (hvgd : Icm20649.gyroDlpfValid ivgd = false)
    (hwa : Icm20948.accelScaleOf jva = none)
    (hwg : Icm20948.gyroScaleOf jvg = none)
    (hwad : Icm20948.accelDlpfValid jvad = false)
    (hwgd : Icm20948.gyroDlpfValid jvgd = false)
    (hwtd : Icm20948.tempDlpfValid jvtd = false)
    (ha2 : aStr ≠ "2G") (ha4 : aStr ≠ "4G") (ha8 : aStr ≠ "8G")
    (ha16 : aStr ≠ "16G") (hg250 : gStr ≠ "250DPS") (hg500 : gStr ≠ "500DPS")
    (hg1000 : gStr ≠ "1000DPS") (hg2000 : gStr ≠ "2000DPS")
    (h184 : bw ≠ "184HZ") (h92 : bw ≠ "92HZ") (h41 : bw ≠ "41HZ")
    (h20 : bw ≠ "20HZ") (h10 : bw ≠ "10HZ") (h5 : bw ≠ "5HZ") (hf : f ≠ 0) :
    ((Icm20649.ConfigAccelRange st b iva).1 = false ∧
     ((Icm20649.ConfigAccelRange st b iva).2.1 = st ∨
      (Icm20649.ConfigAccelRange st b iva).2.1 =
        { st with currentBank := 2 }) ∧
     ((Icm20649.ConfigAccelRange st b iva).2.2.trace = b.trace ∨
      (Icm20649.ConfigAccelRange st b iva).2.2.trace =
        b.trace ++ [Txn.wr Icm20649.REG_BANK_SEL_ ((2 <<< 4) % 256)])) ∧
    ((Icm20649.ConfigGyroRange st b ivg).1 = false ∧
     ((Icm20649.ConfigGyroRange st b ivg).2.1 = st ∨
      (Icm20649.ConfigGyroRange st b ivg).2.1 =
        { st with currentBank := 2 }) ∧
     ((Icm20649.ConfigGyroRange st b ivg).2.2.trace = b.trace ∨
      (Icm20649.ConfigGyroRange st b ivg).2.2.trace =
        b.trace ++ [Txn.wr Icm20649.REG_BANK_SEL_ ((2 <<< 4) % 256)])) ∧
    ((Icm20649.ConfigAccelDlpfBandwidth st b ivad).1 = false ∧
     ((Icm20649.ConfigAccelDlpfBandwidth st b ivad).2.1 = st ∨
      (Icm20649.ConfigAccelDlpfBandwidth st b ivad).2.1 =
        { st with currentBank := 2 }) ∧
     ((Icm20649.ConfigAccelDlpfBandwidth st b ivad).2.2.trace = b.trace ∨
      (Icm20649.ConfigAccelDlpfBandwidth st b ivad).2.2.trace =
        b.trace ++ [Txn.wr Icm20649.REG_BANK_SEL_ ((2 <<< 4) % 256)])) ∧
    ((Icm20649.ConfigGyroDlpfBandwidth st b ivgd).1 = false ∧
     ((Icm20649.ConfigGyroDlpfBandwidth st b ivgd).2.1 = st ∨
      (Icm20649.ConfigGyroDlpfBandwidth st b ivgd).2.1 =
        { st with currentBank := 2 }) ∧
     ((Icm20649.ConfigGyroDlpfBandwidth st b ivgd).2.2.trace = b.trace ∨
      (Icm20649.ConfigGyroDlpfBandwidth st b ivgd).2.2.trace =
        b.trace ++ [Txn.wr Icm20649.REG_BANK_SEL_ ((2 <<< 4) % 256)])) ∧
    Icm20948.ConfigAccelRange s8 b jva = (false, s8, b) ∧
    Icm20948.ConfigGyroRange s8 b jvg = (false, s8, b) ∧
    Icm20948.ConfigAccelDlpfBandwidth s8 b jvad = (false, s8, b) ∧
    Icm20948.ConfigGyroDlpfBandwidth s8 b jvgd = (false, s8, b) ∧
    Icm20948.ConfigTempDlpfBandwidth s8 b jvtd = (false, s8, b) ∧
    Mpu9250.begin sm b aStr gStr =
      (sm, Mpu9250.writeRegister b Mpu9250.PWR_MGMNT_1
        Mpu9250.CLOCK_SEL_PLL) ∧
    Mpu9250.setFilt sm b bw f =
      some (sm, Mpu9250.writeRegister (Mpu9250.writeRegister
        (Mpu9250.writeRegister b Mpu9250.SMPDIV ((1000 / f - 1) % 256))
        Mpu9250.INT_PIN_CFG 0x00) Mpu9250.INT_ENABLE 0x01) := by
  refine ⟨?_, ?_, ?_, ?_, ?_, ?_, ?_, ?_, ?_, ?_, ?_⟩
  · by_cases hb : (2 : Nat) = st.currentBank
    · simp [Icm20649.ConfigAccelRange, Icm20649.SetBank, busWrite, hva, hb]
    · by_cases hok : b.ok b.trace (Txn.wr Icm20649.REG_BANK_SEL_ 32) = true
      · simp [Icm20649.ConfigAccelRange, Icm20649.SetBank, busWrite, hva, hb,
          hok]
      · simp [Icm20649.ConfigAccelRange, Icm20649.SetBank, busWrite, hva, hb,
          hok]
  · by_cases hb : (2 : Nat) = st.currentBank
    · simp [Icm20649.ConfigGyroRange, Icm20649.SetBank, busWrite, hvg, hb]
    · by_cases hok : b.ok b.trace (Txn.wr Icm20649.REG_BANK_SEL_ 32) = true
      · simp [Icm20649.ConfigGyroRange, Icm20649.SetBank, busWrite, hvg, hb,
          hok]
      · simp [Icm20649.ConfigGyroRange, Icm20649.SetBank, busWrite, hvg, hb,
          hok]
  · by_cases hb : (2 : Nat) = st.currentBank
    · simp [Icm20649.ConfigAccelDlpfBandwidth, Icm20649.SetBank, busWrite,
        hvad, hb]
    · by_cases hok : b.ok b.trace (Txn.wr Icm20649.REG_BANK_SEL_ 32) = true
      · simp [Icm20649.ConfigAccelDlpfBandwidth, Icm20649.SetBank, busWrite,
          hvad, hb, hok]
      · simp [Icm20649.ConfigAccelDlpfBandwidth, Icm20649.SetBank, busWrite,
          hvad, hb, hok]
  · by_cases hb : (2 : Nat) = st.currentBank
    · simp [Icm20649.ConfigGyroDlpfBandwidth, Icm20649.SetBank, busWrite,
        hvgd, hb]
    · by_cases hok : b.ok b.trace (Txn.wr Icm20649.REG_BANK_SEL_ 32) = true
      · simp [Icm20649.ConfigGyroDlpfBandwidth, Icm20649.SetBank, busWrite,
          hvgd, hb, hok]
      · simp [Icm20649.ConfigGyroDlpfBandwidth, Icm20649.SetBank, busWrite,
          hvgd, hb, hok]
  · simp [Icm20948.ConfigAccelRange, hwa]
  · simp [Icm20948.ConfigGyroRange, hwg]
  · simp [Icm20948.ConfigAccelDlpfBandwidth, hwad]
  · simp [Icm20948.ConfigGyroDlpfBandwidth, hwgd]
  · simp [Icm20948.ConfigTempDlpfBandwidth, hwtd]
  · simp [Mpu9250.begin, ha2, ha4, ha8, ha16, hg250, hg500, hg1000, hg2000]
  · simp [Mpu9250.setFilt, Mpu9250.setFiltDlpf, h184, h92, h41, h20, h10,
      h5, hf]

/-- Witness for C3 at concrete invalid inputs (value 9 for every
enumerated setting, unrecognised strings, frequency 50): extracts the
failure returns of the ICM20649 and ICM20948 accel-range calls from the
amended theorem with every hypothesis discharged concretely. -/
theorem c3_invalid_config_preserves_state_witness :
    (Icm20649.ConfigAccelRange Icm20649.initSt (constBus 0) 9).1 = false ∧
    Icm20948.ConfigAccelRange Icm20948.initSt (constBus 0) 9 =
      (false, Icm20948.initSt, constBus 0) := by
  have h := c3_invalid_config_preserves_state Icm20649.initSt Icm20948.initSt
    Mpu9250.initSt (constBus 0) 9 9 9 9 9 9 9 9 9 50 "3G" "300DPS" "99HZ"
    (by decide) (by decide) (by decide) (by decide) (by decide) (by decide)
    (by decide) (by decide) (by decide) (by decide) (by decide) (by decide)
    (by decide) (by decide) (by decide) (by decide) (by decide) (by decide)
    (by decide) (by decide) (by decide) (by decide) (by decide) (by decide)
  exact ⟨h.1.1, h.2.2.2.2.1⟩

/-- A transport for the magnetometer-equipped variant: every transaction
succeeds, the interrupt-status register reports data ready, and the burst
data registers answer with the bytes `g 0 .. g 22`. -/
def envMag (g : Nat → Nat) : Bus :=
  { ok := fun _ _ => true
    resp := fun _ reg i =>
      if reg = Icm20948.ACCEL_XOUT_H then g i
      else if reg = Icm20948.INT_STATUS_1_ then 1 else 0
    trace := [] }

/-- A burst-response function whose auxiliary status byte has the
data-ready bit set and whose ST2 byte has the overflow bit set. -/
def gOvfl : Nat → Nat :=
  fun i => if i = 14 then 1 else if i = 22 then 8 else 0

/-- A driver state carrying a recognisable previous scaled magnetometer
sample. -/
def magSt : Icm20948.St :=
  { Icm20948.initSt with mag := [111, 222, 333] }

/-- `magSt` with its data buffer already holding a burst whose status
bytes show data-ready and overflow simultaneously. -/
def magStOvfl : Icm20948.St := { magSt with dataBuf := gOvfl }

/-- C8: on the magnetometer-equipped variant, the unpack step of `Read`
(which `Read` applies to every successful acquisition) reports the
new-mag-data flag true exactly when the auxiliary data-ready status bit
(buffer byte 14) is set and the auxiliary overflow status bit (buffer
byte 22) is clear; whenever the flag is false the scaled magnetometer
output retains its previous value.  The concrete end-to-end conjuncts run
the full `Read` against a transport whose status byte has both data-ready
and overflow set: `Read` succeeds, the flag is forced false, and the
previous scaled sample `[111, 222, 333]` is retained. -/
theorem c8_mag_validity_and_retention (st : Icm20948.St) :
    ((Icm20948.readUnpack st).newMagData =
      (((st.dataBuf 14 &&& Icm20948.AK09916_ST1_DRDY_) != 0) &&
       ((st.dataBuf 22 &&& Icm20948.AK09916_ST2_HOFL_) == 0))) ∧
    ((Icm20948.readUnpack st).newMagData = false →
      (Icm20948.readUnpack st).mag = st.mag) ∧
    (Icm20948.Read magSt (envMag gOvfl)).1 = true ∧
    (Icm20948.Read magSt (envMag gOvfl)).2.1.newMagData = false ∧
    (Icm20948.Read magSt (envMag gOvfl)).2.1.mag = magSt.mag := by
  refine ⟨?_, ?_, by decide, by decide, by decide⟩
  · have h : (Icm20948.readUnpack st).newMagData =
        (if ((st.dataBuf 22 &&& Icm20948.AK09916_ST2_HOFL_) != 0) then false
         else ((st.dataBuf 14 &&& Icm20948.AK09916_ST1_DRDY_) != 0)) := rfl
    rw [h]
    cases h22 : ((st.dataBuf 22 &&& Icm20948.AK09916_ST2_HOFL_) != 0) <;>
      cases h14 : ((st.dataBuf 14 &&& Icm20948.AK09916_ST1_DRDY_) != 0) <;>
      simp_all [bne]
  · intro hm
    have h : (Icm20948.readUnpack st).mag =
        (if (Icm20948.readUnpack st).newMagData then
          [(-1) * ((be16 (st.dataBuf 18) (st.dataBuf 17) : ℚ) *
             Icm20948.MAG_SCALE_),
           (be16 (st.dataBuf 16) (st.dataBuf 15) : ℚ) * Icm20948.MAG_SCALE_,
           (be16 (st.dataBuf 20) (st.dataBuf 19) : ℚ) * Icm20948.MAG_SCALE_]
         else st.mag) := rfl
    rw [h, hm]
    simp

/-- Witness for C8: at the concrete state whose buffer shows data-ready
and overflow together, the flag is false and the previous scaled sample
is retained. -/
theorem c8_mag_validity_and_retention_witness :
    (Icm20948.readUnpack magStOvfl).newMagData = false ∧
    (Icm20948.readUnpack magStOvfl).mag = magStOvfl.mag :=
  ⟨by decide, (c8_mag_validity_and_retention magStOvfl).2.1 (by decide)⟩

/-- A transport for the ICM20948 in which every write succeeds, the
status register reports data ready, but every burst read of the data
registers fails at the transport level. -/
def envBurstFail48 : Bus :=
  { ok := fun _ t =>
      match t with
      | Txn.rd r _ => !(r == Icm20948.ACCEL_XOUT_H)
      | Txn.wr _ _ => true
    resp := fun _ reg _ => if reg = Icm20948.INT_STATUS_1_ then 1 else 0
    trace := [] }

/-- A transport for the ICM20948 in which the read of the
interrupt-status register itself fails. -/
def envStatusFail48 : Bus :=
  { ok := fun _ t =>
      match t with
      | Txn.rd r _ => !(r == Icm20948.INT_STATUS_1_)
      | Txn.wr _ _ => true
    resp := fun _ _ _ => 0
    trace := [] }

/-- The ICM20649 analogue of `envBurstFail48`. -/
def envBurstFail49 : Bus :=
  { ok := fun _ t =>
      match t with
      | Txn.rd r _ => !(r == Icm20649.ACCEL_XOUT_H)
      | Txn.wr _ _ => true
    resp := fun _ reg _ => if reg = Icm20649.INT_STATUS_1_ then 1 else 0
    trace := [] }

/-- C5 counterexample: the claim says that when the burst read of the
data registers inside `Read()` fails at the transport level, `Read()`
returns false.  Both drivers ignore that read's result (icm20649.cpp
line 344, icm20948.cpp line 408): against a transport that refuses
exactly the data-register burst read, the burst read is attempted, the
transport rejects it, and `Read` still returns true, publishing samples
recomputed from the unchanged buffer. -/
theorem c5_counterexample_burst_read_unchecked :
    (Icm20649.Read Icm20649.initSt envBurstFail49).1 = true ∧
    Txn.rd Icm20649.ACCEL_XOUT_H 14 ∈
      (Icm20649.Read Icm20649.initSt envBurstFail49).2.2.trace ∧
    (∀ tr, envBurstFail49.ok tr (Txn.rd Icm20649.ACCEL_XOUT_H 14) = false) :=
  ⟨rfl, by decide, fun tr => rfl⟩

/-- C5 (amended): transport failures of the checked operations are
surfaced immediately — a failed interrupt-status read makes `Read` return
false with the driver state unchanged apart from the cleared new-data
flag — but the burst read of the data registers is unchecked: when it is
the one that fails, `Read` on either banked variant still returns true. -/
theorem c5_transport_failure_surfacing (st48 : Icm20948.St) :
    (Icm20948.Read { st48 with currentBank := 0 } envStatusFail48).1 =
      false ∧
    (Icm20948.Read { st48 with currentBank := 0 } envStatusFail48).2.1 =
      { st48 with currentBank := 0, newImuData := false } ∧
    (Icm20948.Read Icm20948.initSt envBurstFail48).1 = true ∧
    (Icm20649.Read Icm20649.initSt envBurstFail49).1 = true :=
  ⟨rfl, rfl, rfl, rfl⟩

/-- Txn classifier: is this transaction a read? -/
def isRead (t : Txn) : Bool :=
  match t with
  | Txn.rd _ _ => true
  | Txn.wr _ _ => false

/-- C6 counterexample: the claim quantifies over every configuration
field update, but `MPU9250::setFilt` performs no read-modify-write at
all: selecting the 184 Hz bandwidth writes the absolute byte 0x01 to the
`CONFIG` register (whose gyro-DLPF field is bits 0-2) without ever
reading it, so for current register contents `0xC0` the written byte
differs from the contents in bits 6-7, outside the targeted field.  The
run's transaction list contains no read, and the written DLPF byte
clears those pre-set adjacent bits. -/
theorem c6_counterexample_mpu9250_absolute_write :
    (Mpu9250.setFilt Mpu9250.initSt (constBus 0) "184HZ" 100).map
        (fun p => lastWr p.2.trace Mpu9250.CONFIG) =
      some (some Mpu9250.GYRO_DLPF_184) ∧
    (Mpu9250.setFilt Mpu9250.initSt (constBus 0) "184HZ" 100).map
        (fun p => p.2.trace.any isRead) = some false ∧
    ((Mpu9250.GYRO_DLPF_184 ^^^ 0xC0) &&& 0xF8) ≠ 0 := by
  refine ⟨by decide, by decide, by decide⟩

set_option maxRecDepth 10000 in
/-- C6 (amended): on the banked variants every range and DLPF
configuration update is a genuine read-modify-write: for every current
register byte `r` answered by the transport and every staged field value,
the byte written back differs from `r` only inside the targeted bit field
(bits 1-2 for the range writes, checked with preservation mask 0xF9;
bits 3-5 plus the always-set filter-enable bit 0 for the DLPF writes,
checked with preservation mask 0xC6) — in particular the other field
sharing the register is untouched.  The MPU9250 path is excluded: it
writes absolute bytes without reading (see the counterexample). -/
theorem c6_rmw_preserves_unrelated_bits :
    (∀ (r : Fin 256) (k : Fin 4), ∃ v,
      lastWr (Icm20948.ConfigAccelRange
          { Icm20948.initSt with currentBank := 2 }
          (constBus r.val) k.val).2.2.trace Icm20948.ACCEL_CONFIG_ =
        some v ∧ ((v ^^^ r.val % 256) &&& 0xF9) = 0) ∧
    (∀ (r : Fin 256) (a : Fin 4), ∃ v,
      lastWr (Icm20948.ConfigGyroRange
          { Icm20948.initSt with
            currentBank := 2, requestedAccelRange := a.val }
          (constBus r.val) 0).2.2.trace Icm20948.GYRO_CONFIG_1_ =
        some v ∧ ((v ^^^ r.val % 256) &&& 0xF9) = 0) ∧
    (∀ (r : Fin 256) (k : Fin 7), ∃ v,
      lastWr (Icm20948.ConfigAccelDlpfBandwidth
          { Icm20948.initSt with currentBank := 2 }
          (constBus r.val) (k.val + 1)).2.2.trace Icm20948.ACCEL_CONFIG_ =
        some v ∧ ((v ^^^ r.val % 256) &&& 0xC6) = 0) ∧
    (∀ (r : Fin 256) (k : Fin 8), ∃ v,
      lastWr (Icm20948.ConfigGyroDlpfBandwidth
          { Icm20948.initSt with currentBank := 2 }
          (constBus r.val) k.val).2.2.trace Icm20948.GYRO_CONFIG_1_ =
        some v ∧ ((v ^^^ r.val % 256) &&& 0xC6) = 0) ∧
    (∀ (r : Fin 256) (k : Fin 4), ∃ v,
      lastWr (Icm20649.ConfigAccelRange
          { Icm20649.initSt with currentBank := 2 }
          (constBus r.val) k.val).2.2.trace Icm20649.ACCEL_CONFIG_ =
        some v ∧ ((v ^^^ r.val % 256) &&& 0xF9) = 0) ∧
    (∀ (r : Fin 256) (a : Fin 4), ∃ v,
      lastWr (Icm20649.ConfigGyroRange
          { Icm20649.initSt with
            currentBank := 2, requestedAccelRange := a.val }
          (constBus r.val) 0).2.2.trace Icm20649.GYRO_CONFIG_1_ =
        some v ∧ ((v ^^^ r.val % 256) &&& 0xF9) = 0) ∧
    (∀ (r : Fin 256) (k : Fin 7), ∃ v,
      lastWr (Icm20649.ConfigAccelDlpfBandwidth
          { Icm20649.initSt with currentBank := 2 }
          (constBus r.val) (k.val + 1)).2.2.trace Icm20649.ACCEL_CONFIG_ =
        some v ∧ ((v ^^^ r.val % 256) &&& 0xC6) = 0) ∧
    (∀ (r : Fin 256) (k : Fin 8), ∃ v,
      lastWr (Icm20649.ConfigGyroDlpfBandwidth
          { Icm20649.initSt with currentBank := 2 }
          (constBus r.val) k.val).2.2.trace Icm20649.GYRO_CONFIG_1_ =
        some v ∧ ((v ^^^ r.val % 256) &&& 0xC6) = 0) := by
  refine ⟨?_, ?_, ?_, ?_, ?_, ?_, ?_, ?_⟩
  · intro r k
    fin_cases k <;> exact ⟨_, rfl, by revert r; decide⟩
  · intro r a
    fin_cases a <;> exact ⟨_, rfl, by revert r; decide⟩
  · intro r k
    fin_cases k <;> exact ⟨_, rfl, by revert r; decide⟩
  · intro r k
    fin_cases k <;> exact ⟨_, rfl, by revert r; decide⟩
  · intro r k
    fin_cases k <;> exact ⟨_, rfl, by revert r; decide⟩
  · intro r a
    fin_cases a <;> exact ⟨_, rfl, by revert r; decide⟩
  · intro r k
    fin_cases k <;> exact ⟨_, rfl, by revert r; decide⟩
  · intro r k
    fin_cases k <;> exact ⟨_, rfl, by revert r; decide⟩

/-- The value of the last write to the auxiliary master's slave-register
pointer in a trace — used by the device-emulating environments to answer
indirect reads the way a well-behaved AK09916 bridge would. -/
def lastSlvReg (tr : List Txn) : Option Nat :=
  tr.reverse.findSome? fun t =>
    match t with
    | Txn.wr r v => if r = Icm20948.I2C_SLV0_REG_ then some v else none
    | Txn.rd _ _ => none

/-- The value of the last write to the auxiliary master's outgoing data
register in a trace. -/
def lastSlvD0 (tr : List Txn) : Option Nat :=
  tr.reverse.findSome? fun t =>
    match t with
    | Txn.wr r v => if r = Icm20948.I2C_SLV0_D0_ then some v else none
    | Txn.rd _ _ => none

/-- A response function emulating a healthy device: the primary identity
register answers `w`; the external-sensor data window answers `akw` when
the last armed auxiliary register was the AK09916 identity register, and
otherwise echoes the last byte staged for an indirect write (as a
successful bridge write would on read-back). -/
def akResp (w akw : Nat) (tr : List Txn) (reg i : Nat) : Nat :=
  if reg = Icm20948.WHO_AM_I_ then w
  else if reg = Icm20948.EXT_SLV_SENS_DATA_00_ then
    match lastSlvReg tr with
    | some r =>
      if r = Icm20948.AK09916_WIA2_ then akw else (lastSlvD0 tr).getD 0
    | none => 0
  else 0

/-- A healthy transport/device: every transaction succeeds and both
identity checks can pass. -/
def envAkOk : Bus :=
  { ok := fun _ _ => true
    resp := akResp Icm20948.WHOAMI_ICM20649_ Icm20948.WHOAMI_AK09916_
    trace := [] }

/-- `envAkOk` except that every write of the reset value to the power
management register is refused by the transport. -/
def envResetFail : Bus :=
  { ok := fun _ t =>
      !(t == Txn.wr Icm20948.PWR_MGMT_1_ Icm20948.PWR_MGMT_1_RESET_)
    resp := akResp Icm20948.WHOAMI_ICM20649_ Icm20948.WHOAMI_AK09916_
    trace := [] }


/-- C4 counterexample: the claim lists the reset among the steps whose
failure aborts `Begin`.  Against a device on which the whole bring-up
would succeed (`envAkOk` does yield overall success) but whose transport
refuses exactly the IMU reset write, `Icm20948::Begin` (line 69 discards
that write's result) still runs to completion and returns true: the
failing reset write is attempted, refused, and ignored. -/
theorem c4_counterexample_reset_failure_ignored :
    (Icm20948.Begin Icm20948.initSt envAkOk).1 = true ∧
    (Icm20948.Begin Icm20948.initSt envResetFail).1 = true ∧
    Txn.wr Icm20948.PWR_MGMT_1_ Icm20948.PWR_MGMT_1_RESET_ ∈
      (Icm20948.Begin Icm20948.initSt envResetFail).2.2.trace ∧
    (∀ tr, envResetFail.ok tr
      (Txn.wr Icm20948.PWR_MGMT_1_ Icm20948.PWR_MGMT_1_RESET_) = false) :=
  ⟨by decide, by decide, by decide, fun tr => rfl⟩

/-- Two buses share transport semantics (`ok` and `resp`); only the
recorded history differs. -/
def sameEnv (x y : Bus) : Prop := x.ok = y.ok ∧ x.resp = y.resp

theorem sameEnv_refl (x : Bus) : sameEnv x x := ⟨rfl, rfl⟩

theorem sameEnv_trans {x y z : Bus} (h1 : sameEnv x y) (h2 : sameEnv y z) :
    sameEnv x z := ⟨h1.1.trans h2.1, h1.2.trans h2.2⟩

theorem busRead_env (b : Bus) (reg count : Nat) :
    sameEnv (busRead b reg count).2 b := by
  simp only [busRead]
  split <;> exact ⟨rfl, rfl⟩

theorem sameEnv_pair {σ α : Type} {X : α × σ × Bus} {f : α} {s : σ} {c : Bus}
    (heq : X = (f, s, c)) {b : Bus} (hX : sameEnv X.2.2 b) : sameEnv c b := by
  rw [heq] at hX; exact hX

theorem sameEnv_pair2 {σ : Type} {X : σ × Bus} {s : σ} {c : Bus}
    (heq : X = (s, c)) {b : Bus} (hX : sameEnv X.2 b) : sameEnv c b := by
  rw [heq] at hX; exact hX

theorem sb49_env (st : Icm20649.St) (b : Bus) (bank : Nat) :
    sameEnv (Icm20649.SetBank st b bank).2.2 b := by
  simp only [Icm20649.SetBank, busWrite]
  split
  · split <;> exact ⟨rfl, rfl⟩
  · exact ⟨rfl, rfl⟩

theorem wr49_env (st : Icm20649.St) (b : Bus) (reg data : Nat) :
    sameEnv (Icm20649.WriteRegister st b reg data).2.2 b := ⟨rfl, rfl⟩

theorem rd49_env (st : Icm20649.St) (b : Bus) (reg count : Nat) :
    sameEnv (Icm20649.ReadRegisters st b reg count).2.2 b := by
  simp only [Icm20649.ReadRegisters, busRead]
  split <;> exact ⟨rfl, rfl⟩

theorem cfgAR49_env (st : Icm20649.St) (b : Bus) (range : Nat) :
    sameEnv (Icm20649.ConfigAccelRange st b range).2.2 b := by
  unfold Icm20649.ConfigAccelRange
  rcases hS : Icm20649.SetBank st b 2 with ⟨fS, s1, c1⟩
  have eS := sb49_env st b 2
  rw [hS] at eS
  cases fS
  · exact eS
  · dsimp only
    rcases hA : Icm20649.accelScaleOf range with _ | sc
    · exact eS
    · dsimp only
      rcases hR : busRead c1 Icm20649.ACCEL_CONFIG_ 1 with ⟨r, b2⟩
      have eR := busRead_env c1 Icm20649.ACCEL_CONFIG_ 1
      rw [hR] at eR
      have E : sameEnv b2 b := sameEnv_trans eR eS
      cases r <;>
        (try dsimp only
         simp only [busWrite]
         try dsimp only
         split <;> exact ⟨E.1, E.2⟩)

theorem cfgGR49_env (st : Icm20649.St) (b : Bus) (range : Nat) :
    sameEnv (Icm20649.ConfigGyroRange st b range).2.2 b := by
  unfold Icm20649.ConfigGyroRange
  rcases hS : Icm20649.SetBank st b 2 with ⟨fS, s1, c1⟩
  have eS := sb49_env st b 2
  rw [hS] at eS
  cases fS
  · exact eS
  · dsimp only
    rcases hA : Icm20649.gyroScaleOf range with _ | sc
    · exact eS
    · dsimp only
      rcases hR : busRead c1 Icm20649.GYRO_CONFIG_1_ 1 with ⟨r, b2⟩
      have eR := busRead_env c1 Icm20649.GYRO_CONFIG_1_ 1
      rw [hR] at eR
      have E : sameEnv b2 b := sameEnv_trans eR eS
      cases r <;>
        (try dsimp only
         simp only [busWrite]
         try dsimp only
         split <;> exact ⟨E.1, E.2⟩)

theorem cfgAD49_env (st : Icm20649.St) (b : Bus) (dlpf : Nat) :
    sameEnv (Icm20649.ConfigAccelDlpfBandwidth st b dlpf).2.2 b := by
  unfold Icm20649.ConfigAccelDlpfBandwidth
  rcases hS : Icm20649.SetBank st b 2 with ⟨fS, s1, c1⟩
  have eS := sb49_env st b 2
  rw [hS] at eS
  cases fS
  · exact eS
  · dsimp only
    split
    · exact eS
    · rcases hR : busRead c1 Icm20649.ACCEL_CONFIG_ 1 with ⟨r, b2⟩
      have eR := busRead_env c1 Icm20649.ACCEL_CONFIG_ 1
      rw [hR] at eR
      have E : sameEnv b2 b := sameEnv_trans eR eS
      cases r <;>
        (try dsimp only
         simp only [busWrite]
         try dsimp only
         split <;> exact ⟨E.1, E.2⟩)

theorem cfgGD49_env (st : Icm20649.St) (b : Bus) (dlpf : Nat) :
    sameEnv (Icm20649.ConfigGyroDlpfBandwidth st b dlpf).2.2 b := by
  unfold Icm20649.ConfigGyroDlpfBandwidth
  rcases hS : Icm20649.SetBank st b 2 with ⟨fS, s1, c1⟩
  have eS := sb49_env st b 2
  rw [hS] at eS
  cases fS
  · exact eS
  · dsimp only
    split
    · exact eS
    · rcases hR : busRead c1 Icm20649.GYRO_CONFIG_1_ Icm20649.DATA_BUF_SIZE_
        with ⟨r, b2⟩
      have eR := busRead_env c1 Icm20649.GYRO_CONFIG_1_ Icm20649.DATA_BUF_SIZE_
      rw [hR] at eR
      have E : sameEnv b2 b := sameEnv_trans eR eS
      cases r <;>
        (try dsimp only
         simp only [busWrite]
         try dsimp only
         split <;> exact ⟨E.1, E.2⟩)

theorem cfgSrd49_env (st : Icm20649.St) (b : Bus) (srd : Nat) :
    sameEnv (Icm20649.ConfigSrd st b srd).2.2 b := by
  unfold Icm20649.ConfigSrd
  rcases hS : Icm20649.SetBank st b 2 with ⟨fS, s1, c1⟩
  have eS := sb49_env st b 2
  rw [hS] at eS
  cases fS
  · exact eS
  · try dsimp only
    simp only [busWrite]
    split
    · exact ⟨eS.1, eS.2⟩
    · try dsimp only
      split <;> exact ⟨eS.1, eS.2⟩

theorem wr48_env (st : Icm20948.St) (b : Bus) (bank reg data : Nat) :
    sameEnv (Icm20948.WriteRegister st b bank reg data).2.2 b := by
  simp only [Icm20948.WriteRegister, busWrite]
  split
  · split <;> exact ⟨rfl, rfl⟩
  · exact ⟨rfl, rfl⟩

theorem rd48_env (st : Icm20948.St) (b : Bus) (bank reg count : Nat) :
    sameEnv (Icm20948.ReadRegisters st b bank reg count).2.2 b := by
  simp only [Icm20948.ReadRegisters, busRead, busWrite]
  split
  · split
    · exact ⟨rfl, rfl⟩
    · split <;> exact ⟨rfl, rfl⟩
  · split <;> exact ⟨rfl, rfl⟩

theorem rdAk48_env (st : Icm20948.St) (b : Bus) (reg count : Nat) :
    sameEnv (Icm20948.ReadAk09916Registers st b reg count).2.2 b := by
  unfold Icm20948.ReadAk09916Registers
  rcases h1 : Icm20948.WriteRegister st b Icm20948.BANK_3_
      Icm20948.I2C_SLV0_ADDR_
      (Icm20948.AK09916_I2C_ADDR_ ||| Icm20948.I2C_SLV0_ADDR_READ_) with
    ⟨f1, s1, c1⟩
  have e1 := wr48_env st b Icm20948.BANK_3_ Icm20948.I2C_SLV0_ADDR_
      (Icm20948.AK09916_I2C_ADDR_ ||| Icm20948.I2C_SLV0_ADDR_READ_)
  rw [h1] at e1
  cases f1
  · exact e1
  · dsimp only
    rcases h2 : Icm20948.WriteRegister s1 c1 Icm20948.BANK_3_
        Icm20948.I2C_SLV0_REG_ reg with ⟨f2, s2, c2⟩
    have e2 := wr48_env s1 c1 Icm20948.BANK_3_ Icm20948.I2C_SLV0_REG_ reg
    rw [h2] at e2
    cases f2
    · exact sameEnv_trans e2 e1
    · dsimp only
      rcases h3 : Icm20948.WriteRegister s2 c2 Icm20948.BANK_3_
          Icm20948.I2C_SLV0_CTRL_ (Icm20948.I2C_SLV0_CTRL_EN_ ||| count) with
        ⟨f3, s3, c3⟩
      have e3 := wr48_env s2 c2 Icm20948.BANK_3_ Icm20948.I2C_SLV0_CTRL_
          (Icm20948.I2C_SLV0_CTRL_EN_ ||| count)
      rw [h3] at e3
      cases f3
      · exact sameEnv_trans e3 (sameEnv_trans e2 e1)
      · dsimp only
        exact sameEnv_trans
          (rd48_env s3 c3 Icm20948.BANK_0_ Icm20948.EXT_SLV_SENS_DATA_00_
            count)
          (sameEnv_trans e3 (sameEnv_trans e2 e1))

theorem wrAk48_env (st : Icm20948.St) (b : Bus) (reg data : Nat) :
    sameEnv (Icm20948.WriteAk09916Register st b reg data).2.2 b := by
  unfold Icm20948.WriteAk09916Register
  rcases h1 : Icm20948.WriteRegister st b Icm20948.BANK_3_
      Icm20948.I2C_SLV0_ADDR_ Icm20948.AK09916_I2C_ADDR_ with ⟨f1, s1, c1⟩
  have e1 := wr48_env st b Icm20948.BANK_3_ Icm20948.I2C_SLV0_ADDR_
      Icm20948.AK09916_I2C_ADDR_
  rw [h1] at e1
  cases f1
  · exact e1
  · dsimp only
    rcases h2 : Icm20948.WriteRegister s1 c1 Icm20948.BANK_3_
        Icm20948.I2C_SLV0_REG_ reg with ⟨f2, s2, c2⟩
    have e2 := wr48_env s1 c1 Icm20948.BANK_3_ Icm20948.I2C_SLV0_REG_ reg
    rw [h2] at e2
    cases f2
    · exact sameEnv_trans e2 e1
    · dsimp only
      rcases h3 : Icm20948.WriteRegister s2 c2 Icm20948.BANK_3_
          Icm20948.I2C_SLV0_D0_ data with ⟨f3, s3, c3⟩
      have e3 := wr48_env s2 c2 Icm20948.BANK_3_ Icm20948.I2C_SLV0_D0_ data
      rw [h3] at e3
      cases f3
      · exact sameEnv_trans e3 (sameEnv_trans e2 e1)
      · dsimp only
        rcases h4 : Icm20948.WriteRegister s3 c3 Icm20948.BANK_3_
            Icm20948.I2C_SLV0_CTRL_ (Icm20948.I2C_SLV0_CTRL_EN_ ||| 1) with
          ⟨f4, s4, c4⟩
        have e4 := wr48_env s3 c3 Icm20948.BANK_3_ Icm20948.I2C_SLV0_CTRL_
            (Icm20948.I2C_SLV0_CTRL_EN_ ||| 1)
        rw [h4] at e4
        have E4 : sameEnv c4 b :=
          sameEnv_trans e4 (sameEnv_trans e3 (sameEnv_trans e2 e1))
        cases f4
        · exact E4
        · dsimp only
          rcases h5 : Icm20948.ReadAk09916Registers s4 c4 reg 1 with
            ⟨r5, s5, c5⟩
          have e5 := rdAk48_env s4 c4 reg 1
          rw [h5] at e5
          have E5 : sameEnv c5 b := sameEnv_trans e5 E4
          cases r5
          · exact E5
          · exact E5

theorem cfgAR48_env (st : Icm20948.St) (b : Bus) (range : Nat) :
    sameEnv (Icm20948.ConfigAccelRange st b range).2.2 b := by
  unfold Icm20948.ConfigAccelRange
  rcases hA : Icm20948.accelScaleOf range with _ | sc
  · exact sameEnv_refl b
  · dsimp only
    rcases hR : Icm20948.ReadRegisters
        { st with requestedAccelRange := range, requestedAccelScale := sc } b
        Icm20948.BANK_2_ Icm20948.ACCEL_CONFIG_ 1 with ⟨r, s1, c1⟩
    have eR := rd48_env
        { st with requestedAccelRange := range, requestedAccelScale := sc } b
        Icm20948.BANK_2_ Icm20948.ACCEL_CONFIG_ 1
    rw [hR] at eR
    cases r <;>
      (try dsimp only
       split <;>
         (rename_i sx cx heqx
          exact sameEnv_pair heqx (sameEnv_trans (wr48_env _ _ _ _ _) eR)))

theorem cfgGR48_env (st : Icm20948.St) (b : Bus) (range : Nat) :
    sameEnv (Icm20948.ConfigGyroRange st b range).2.2 b := by
  unfold Icm20948.ConfigGyroRange
  rcases hA : Icm20948.gyroScaleOf range with _ | sc
  · exact sameEnv_refl b
  · dsimp only
    rcases hR : Icm20948.ReadRegisters
        { st with requestedGyroRange := range, requestedGyroScale := sc } b
        Icm20948.BANK_2_ Icm20948.GYRO_CONFIG_1_ 1 with ⟨r, s1, c1⟩
    have eR := rd48_env
        { st with requestedGyroRange := range, requestedGyroScale := sc } b
        Icm20948.BANK_2_ Icm20948.GYRO_CONFIG_1_ 1
    rw [hR] at eR
    cases r <;>
      (try dsimp only
       split <;>
         (rename_i sx cx heqx
          exact sameEnv_pair heqx (sameEnv_trans (wr48_env _ _ _ _ _) eR)))

theorem cfgAD48_env (st : Icm20948.St) (b : Bus) (dlpf : Nat) :
    sameEnv (Icm20948.ConfigAccelDlpfBandwidth st b dlpf).2.2 b := by
  unfold Icm20948.ConfigAccelDlpfBandwidth
  split
  · exact sameEnv_refl b
  · try dsimp only
    rcases hR : Icm20948.ReadRegisters
        { st with accelRequestedDlpf := dlpf } b
        Icm20948.BANK_2_ Icm20948.ACCEL_CONFIG_ 1 with ⟨r, s1, c1⟩
    have eR := rd48_env { st with accelRequestedDlpf := dlpf } b
        Icm20948.BANK_2_ Icm20948.ACCEL_CONFIG_ 1
    rw [hR] at eR
    cases r <;>
      (try dsimp only
       split <;>
         (rename_i sx cx heqx
          exact sameEnv_pair heqx (sameEnv_trans (wr48_env _ _ _ _ _) eR)))

theorem cfgGD48_env (st : Icm20948.St) (b : Bus) (dlpf : Nat) :
    sameEnv (Icm20948.ConfigGyroDlpfBandwidth st b dlpf).2.2 b := by
  unfold Icm20948.ConfigGyroDlpfBandwidth
  split
  · exact sameEnv_refl b
  · try dsimp only
    rcases hR : Icm20948.ReadRegisters
        { st with gyroRequestedDlpf := dlpf } b
        Icm20948.BANK_2_ Icm20948.GYRO_CONFIG_1_ Icm20948.DATA_BUF_SIZE_ with
      ⟨r, s1, c1⟩
    have eR := rd48_env { st with gyroRequestedDlpf := dlpf } b
        Icm20948.BANK_2_ Icm20948.GYRO_CONFIG_1_ Icm20948.DATA_BUF_SIZE_
    rw [hR] at eR
    cases r <;>
      (try dsimp only
       split <;>
         (rename_i sx cx heqx
          exact sameEnv_pair heqx (sameEnv_trans (wr48_env _ _ _ _ _) eR)))

theorem cfgTD48_env (st : Icm20948.St) (b : Bus) (dlpf : Nat) :
    sameEnv (Icm20948.ConfigTempDlpfBandwidth st b dlpf).2.2 b := by
  unfold Icm20948.ConfigTempDlpfBandwidth
  split
  · exact sameEnv_refl b
  · try dsimp only
    split <;>
      (rename_i sx cx heqx
       exact sameEnv_pair heqx (wr48_env _ _ _ _ _))

theorem cfgSrd48_env (st : Icm20948.St) (b : Bus) (srd : Nat) :
    sameEnv (Icm20948.ConfigSrd st b srd).2.2 b := by
  unfold Icm20948.ConfigSrd
  rcases h1 : Icm20948.WriteRegister st b Icm20948.BANK_2_
      Icm20948.ACCEL_SMPLRT_DIV_2_ srd with ⟨f1, s1, c1⟩
  have e1 := wr48_env st b Icm20948.BANK_2_ Icm20948.ACCEL_SMPLRT_DIV_2_ srd
  rw [h1] at e1
  cases f1
  · exact e1
  · dsimp only
    rcases h2 : Icm20948.WriteRegister s1 c1 Icm20948.BANK_2_
        Icm20948.GYRO_SMPLRT_DIV_ srd with ⟨f2, s2, c2⟩
    have e2 := wr48_env s1 c1 Icm20948.BANK_2_ Icm20948.GYRO_SMPLRT_DIV_ srd
    rw [h2] at e2
    have E2 : sameEnv c2 b := sameEnv_trans e2 e1
    cases f2
    · exact E2
    · dsimp only
      rcases h3 : Icm20948.WriteAk09916Register s2 c2 Icm20948.AK09916_CNTL2_
          Icm20948.AK09916_CNTL2_CONT_MEAS_MODE1_ with ⟨f3, s3, c3⟩
      have e3 := wrAk48_env s2 c2 Icm20948.AK09916_CNTL2_
          Icm20948.AK09916_CNTL2_CONT_MEAS_MODE1_
      rw [h3] at e3
      have E3 : sameEnv c3 b := sameEnv_trans e3 E2
      cases f3
      · exact E3
      · dsimp only
        rcases h4 : Icm20948.ReadAk09916Registers s3 c3 Icm20948.AK09916_ST1_
            Icm20948.MAG_DATA_SIZE_ with ⟨r4, s4, c4⟩
        have e4 := rdAk48_env s3 c3 Icm20948.AK09916_ST1_
            Icm20948.MAG_DATA_SIZE_
        rw [h4] at e4
        have E4 : sameEnv c4 b := sameEnv_trans e4 E3
        cases r4
        · exact E4
        · exact E4

theorem begin49_master (st : Icm20649.St) (b : Bus)
    (h : (Icm20649.Begin st b).1 = true) :
    ∃ (s1 : Icm20649.St) (c1 : Bus) (s2 : Icm20649.St) (c2 : Bus)
      (s3 : Icm20649.St) (c3 : Bus) (v1 : List Nat) (s4 : Icm20649.St)
      (c4 : Bus) (f5 : Bool) (s5 : Icm20649.St) (c5 : Bus)
      (s6 : Icm20649.St) (c6 : Bus) (s7 : Icm20649.St) (c7 : Bus)
      (s8 : Icm20649.St) (c8 : Bus) (s9 : Icm20649.St) (c9 : Bus)
      (s10 : Icm20649.St) (c10 : Bus) (s11 : Icm20649.St) (c11 : Bus),
      sameEnv c1 b ∧
      Icm20649.SetBank s1 c1 0 = (true, s2, c2) ∧
      sameEnv c2 b ∧
      Icm20649.WriteRegister s2 c2 Icm20649.PWR_MGMT_1_ Icm20649.CLKSEL_AUTO_
        = (true, s3, c3) ∧
      sameEnv c3 b ∧
      Icm20649.ReadRegisters s3 c3 Icm20649.WHO_AM_I_ 1
        = (some v1, s4, c4) ∧
      sameEnv c4 b ∧
      v1.getD 0 s4.whoAmI = Icm20649.WHOAMI_ICM20649_ ∧
      Icm20649.SetBank { s4 with whoAmI := v1.getD 0 s4.whoAmI } c4 2
        = (f5, s5, c5) ∧
      sameEnv c5 b ∧
      Icm20649.WriteRegister s5 c5 Icm20649.ODR_ALIGN_EN_ Icm20649.ALIGN_ODR_
        = (true, s6, c6) ∧
      sameEnv c6 b ∧
      Icm20649.ConfigAccelRange s6 c6 Icm20649.ACCEL_RANGE_30G
        = (true, s7, c7) ∧
      sameEnv c7 b ∧
      Icm20649.ConfigGyroRange s7 c7 Icm20649.GYRO_RANGE_4000DPS
        = (true, s8, c8) ∧
      sameEnv c8 b ∧
      Icm20649.ConfigAccelDlpfBandwidth s8 c8
        Icm20649.ACCEL_DLPF_BANDWIDTH_111HZ = (true, s9, c9) ∧
      sameEnv c9 b ∧
      Icm20649.ConfigGyroDlpfBandwidth s9 c9
        Icm20649.GYRO_DLPF_BANDWIDTH_119HZ = (true, s10, c10) ∧
      sameEnv c10 b ∧
      Icm20649.ConfigSrd s10 c10 0 = (true, s11, c11) ∧
      Icm20649.Begin st b = (true, s11, c11) := by
  rcases hB : Icm20649.Begin st b with ⟨r, sF, cF⟩
  rw [hB] at h
  have hr : r = true := h
  subst hr
  have hB0 := hB
  unfold Icm20649.Begin at hB
  split at hB
  rename_i s1 c1 heqP
  have E1 : sameEnv c1 b := sameEnv_pair2 heqP (by
    split
    · split
      rename_i fW sW cW heqW
      exact sameEnv_pair heqW (wr49_env _ _ _ _)
    · exact sameEnv_refl b)
  split at hB
  case' h_1 => simp at hB
  rename_i s2 c2 heq1
  try dsimp only at hB
  have E2 : sameEnv c2 b := sameEnv_pair heq1
    (sameEnv_trans (sb49_env _ _ _) E1)
  split at hB
  case' h_1 => simp at hB
  rename_i s3 c3 heq2
  try dsimp only at hB
  have E3 : sameEnv c3 b := sameEnv_pair heq2
    (sameEnv_trans (wr49_env _ _ _ _) E2)
  split at hB
  case' h_1 => simp at hB
  rename_i v1 s4 c4 heq3
  try dsimp only at hB
  have E4 : sameEnv c4 b := sameEnv_pair heq3
    (sameEnv_trans (rd49_env _ _ _ _) E3)
  split at hB
  case' isTrue => simp at hB
  rename_i hwne
  have hw : v1.getD 0 s4.whoAmI = Icm20649.WHOAMI_ICM20649_ := not_not.mp hwne
  try dsimp only at hB
  split at hB
  case' h_1 => simp at hB
  rename_i s6 c6 heq6
  try dsimp only at hB
  have E5 : sameEnv
      (Icm20649.SetBank { s4 with whoAmI := v1.getD 0 s4.whoAmI } c4 2).2.2
      b := sameEnv_trans (sb49_env _ _ _) E4
  have E6 : sameEnv c6 b := sameEnv_pair heq6
    (sameEnv_trans (wr49_env _ _ _ _) E5)
  split at hB
  case' h_1 => simp at hB
  rename_i s7 c7 heq7
  try dsimp only at hB
  have E7 : sameEnv c7 b := sameEnv_pair heq7
    (sameEnv_trans (cfgAR49_env _ _ _) E6)
  split at hB
  case' h_1 => simp at hB
  rename_i s8 c8 heq8
  try dsimp only at hB
  have E8 : sameEnv c8 b := sameEnv_pair heq8
    (sameEnv_trans (cfgGR49_env _ _ _) E7)
  split at hB
  case' h_1 => simp at hB
  rename_i s9 c9 heq9
  try dsimp only at hB
  have E9 : sameEnv c9 b := sameEnv_pair heq9
    (sameEnv_trans (cfgAD49_env _ _ _) E8)
  split at hB
  case' h_1 => simp at hB
  rename_i s10 c10 heq10
  try dsimp only at hB
  have E10 : sameEnv c10 b := sameEnv_pair heq10
    (sameEnv_trans (cfgGD49_env _ _ _) E9)
  split at hB
  case' h_1 => simp at hB
  rename_i s11 c11 heq11
  try dsimp only at hB
  exact ⟨s1, c1, s2, c2, s3, c3, v1, s4, c4, _, _, _, s6, c6, s7, c7, s8, c8,
    s9, c9, s10, c10, s11, c11,
    E1, heq1, E2, heq2, E3, heq3, E4, hw, rfl, E5, heq6, E6, heq7, E7, heq8,
    E8, heq9, E9, heq10, E10, heq11, hB.symm⟩

theorem begin48_master (st : Icm20948.St) (b : Bus)
    (h : (Icm20948.Begin st b).1 = true) :
    ∃ (s1 : Icm20948.St) (c1 : Bus) (s2 : Icm20948.St) (c2 : Bus)
      (s3 : Icm20948.St) (c3 : Bus) (s4 : Icm20948.St) (c4 : Bus)
      (fA : Bool) (sA : Icm20948.St) (cA : Bus)
      (fR : Bool) (sR : Icm20948.St) (cR : Bus)
      (s5 : Icm20948.St) (c5 : Bus) (s6 : Icm20948.St) (c6 : Bus)
      (v1 : List Nat) (s7 : Icm20948.St) (c7 : Bus)
      (s8 : Icm20948.St) (c8 : Bus) (s9 : Icm20948.St) (c9 : Bus)
      (v2 : List Nat) (s10 : Icm20948.St) (c10 : Bus)
      (s11 : Icm20948.St) (c11 : Bus) (s12 : Icm20948.St) (c12 : Bus)
      (s13 : Icm20948.St) (c13 : Bus) (s14 : Icm20948.St) (c14 : Bus)
      (s15 : Icm20948.St) (c15 : Bus) (s16 : Icm20948.St) (c16 : Bus)
      (s17 : Icm20948.St) (c17 : Bus),
      sameEnv c1 b ∧
      (st.iface = Iface.spi → ∃ f0, Icm20948.WriteRegister st b
        Icm20948.BANK_0_ Icm20948.USER_CTRL_ Icm20948.USER_CTRL_I2C_IF_DIS_
        = (f0, s1, c1)) ∧
      Icm20948.WriteRegister s1 c1 Icm20948.BANK_0_ Icm20948.PWR_MGMT_1_
        Icm20948.PWR_MGMT_1_CLKSEL_AUTO_ = (true, s2, c2) ∧
      sameEnv c2 b ∧
      Icm20948.WriteRegister s2 c2 Icm20948.BANK_0_ Icm20948.USER_CTRL_
        Icm20948.USER_CTRL_I2C_MST_EN_ = (true, s3, c3) ∧
      sameEnv c3 b ∧
      Icm20948.WriteRegister s3 c3 Icm20948.BANK_3_ Icm20948.I2C_MST_CTRL_
        Icm20948.I2C_MST_CTRL_400_KHZ_CLK_ = (true, s4, c4) ∧
      sameEnv c4 b ∧
      Icm20948.WriteAk09916Register s4 c4 Icm20948.AK09916_CNTL3_
        Icm20948.AK09916_CNTL3_SRST_ = (fA, sA, cA) ∧
      Icm20948.WriteRegister sA cA Icm20948.BANK_0_ Icm20948.PWR_MGMT_1_
        Icm20948.PWR_MGMT_1_RESET_ = (fR, sR, cR) ∧
      sameEnv c5 b ∧
      Icm20948.WriteRegister s5 c5 Icm20948.BANK_0_ Icm20948.PWR_MGMT_1_
        Icm20948.PWR_MGMT_1_CLKSEL_AUTO_ = (true, s6, c6) ∧
      sameEnv c6 b ∧
      Icm20948.ReadRegisters s6 c6 Icm20948.BANK_0_ Icm20948.WHO_AM_I_ 1
        = (some v1, s7, c7) ∧
      sameEnv c7 b ∧
      v1.getD 0 s7.whoAmI = Icm20948.WHOAMI_ICM20649_ ∧
      Icm20948.WriteRegister { s7 with whoAmI := v1.getD 0 s7.whoAmI } c7
        Icm20948.BANK_0_ Icm20948.USER_CTRL_ Icm20948.USER_CTRL_I2C_MST_EN_
        = (true, s8, c8) ∧
      sameEnv c8 b ∧
      Icm20948.WriteRegister s8 c8 Icm20948.BANK_3_ Icm20948.I2C_MST_CTRL_
        Icm20948.I2C_MST_CTRL_400_KHZ_CLK_ = (true, s9, c9) ∧
      sameEnv c9 b ∧
      Icm20948.ReadAk09916Registers s9 c9 Icm20948.AK09916_WIA2_ 1
        = (some v2, s10, c10) ∧
      sameEnv c10 b ∧
      v2.getD 0 s10.whoAmI = Icm20948.WHOAMI_AK09916_ ∧
      Icm20948.WriteRegister { s10 with whoAmI := v2.getD 0 s10.whoAmI } c10
        Icm20948.BANK_2_ Icm20948.ODR_ALIGN_EN_
        Icm20948.ODR_ALIGN_EN_ALIGN_ENABLE_ = (true, s11, c11) ∧
      sameEnv c11 b ∧
      Icm20948.ConfigAccelRange s11 c11 Icm20948.ACCEL_RANGE_16G
        = (true, s12, c12) ∧
      sameEnv c12 b ∧
      Icm20948.ConfigGyroRange s12 c12 Icm20948.GYRO_RANGE_2000DPS
        = (true, s13, c13) ∧
      sameEnv c13 b ∧
      Icm20948.ConfigAccelDlpfBandwidth s13 c13
        Icm20948.ACCEL_DLPF_BANDWIDTH_473HZ = (true, s14, c14) ∧
      sameEnv c14 b ∧
      Icm20948.ConfigGyroDlpfBandwidth s14 c14
        Icm20948.GYRO_DLPF_BANDWIDTH_361HZ = (true, s15, c15) ∧
      sameEnv c15 b ∧
      Icm20948.ConfigTempDlpfBandwidth s15 c15
        Icm20948.TEMP_DLPF_BANDWIDTH_7932HZ = (true, s16, c16) ∧
      sameEnv c16 b ∧
      Icm20948.ConfigSrd s16 c16 0 = (true, s17, c17) ∧
      sameEnv c17 b ∧
      Icm20948.Begin st b = (true, s17, c17) := by
  rcases hB : Icm20948.Begin st b with ⟨r, sF, cF⟩
  rw [hB] at h
  have hr : r = true := h
  subst hr
  unfold Icm20948.Begin at hB
  split at hB
  rename_i s1 c1 heqP
  have E1 : sameEnv c1 b := sameEnv_pair2 heqP (by
    split
    · split
      rename_i fW sW cW heqW
      exact sameEnv_pair heqW (wr48_env _ _ _ _ _)
    · exact sameEnv_refl b)
  have hPspi : st.iface = Iface.spi → ∃ f0, Icm20948.WriteRegister st b
      Icm20948.BANK_0_ Icm20948.USER_CTRL_ Icm20948.USER_CTRL_I2C_IF_DIS_
      = (f0, s1, c1) := by
    intro hif
    rw [if_pos hif] at heqP
    exact ⟨_, by rw [← heqP]⟩
  split at hB
  · simp at hB
  rename_i s2 c2 heq1
  try dsimp only at hB
  have E2 : sameEnv c2 b := sameEnv_pair heq1
    (sameEnv_trans (wr48_env _ _ _ _ _) E1)
  split at hB
  · simp at hB
  rename_i s3 c3 heq2
  try dsimp only at hB
  have E3 : sameEnv c3 b := sameEnv_pair heq2
    (sameEnv_trans (wr48_env _ _ _ _ _) E2)
  split at hB
  · simp at hB
  rename_i s4 c4 heq3
  try dsimp only at hB
  have E4 : sameEnv c4 b := sameEnv_pair heq3
    (sameEnv_trans (wr48_env _ _ _ _ _) E3)
  split at hB
  · simp at hB
  rename_i s6 c6 heq4
  try dsimp only at hB
  have ER : sameEnv
      (Icm20948.WriteRegister
        (Icm20948.WriteAk09916Register s4 c4 Icm20948.AK09916_CNTL3_
          Icm20948.AK09916_CNTL3_SRST_).2.1
        (Icm20948.WriteAk09916Register s4 c4 Icm20948.AK09916_CNTL3_
          Icm20948.AK09916_CNTL3_SRST_).2.2
        Icm20948.BANK_0_ Icm20948.PWR_MGMT_1_
        Icm20948.PWR_MGMT_1_RESET_).2.2 b :=
    sameEnv_trans (wr48_env _ _ _ _ _)
      (sameEnv_trans (wrAk48_env _ _ _ _) E4)
  by_cases hif5 : (Icm20948.WriteRegister
        (Icm20948.WriteAk09916Register s4 c4 Icm20948.AK09916_CNTL3_
          Icm20948.AK09916_CNTL3_SRST_).2.1
        (Icm20948.WriteAk09916Register s4 c4 Icm20948.AK09916_CNTL3_
          Icm20948.AK09916_CNTL3_SRST_).2.2
        Icm20948.BANK_0_ Icm20948.PWR_MGMT_1_
        Icm20948.PWR_MGMT_1_RESET_).2.1.iface = Iface.spi
  case' pos =>
    simp only [if_pos hif5] at heq4
    have E5C : sameEnv
        (Icm20948.WriteRegister
          (Icm20948.WriteRegister
        (Icm20948.WriteAk09916Register s4 c4 Icm20948.AK09916_CNTL3_
          Icm20948.AK09916_CNTL3_SRST_).2.1
        (Icm20948.WriteAk09916Register s4 c4 Icm20948.AK09916_CNTL3_
          Icm20948.AK09916_CNTL3_SRST_).2.2
        Icm20948.BANK_0_ Icm20948.PWR_MGMT_1_
        Icm20948.PWR_MGMT_1_RESET_).2.1
          (Icm20948.WriteRegister
        (Icm20948.WriteAk09916Register s4 c4 Icm20948.AK09916_CNTL3_
          Icm20948.AK09916_CNTL3_SRST_).2.1
        (Icm20948.WriteAk09916Register s4 c4 Icm20948.AK09916_CNTL3_
          Icm20948.AK09916_CNTL3_SRST_).2.2
        Icm20948.BANK_0_ Icm20948.PWR_MGMT_1_
        Icm20948.PWR_MGMT_1_RESET_).2.2
          Icm20948.BANK_0_ Icm20948.USER_CTRL_
          Icm20948.USER_CTRL_I2C_IF_DIS_).2.2 b :=
      sameEnv_trans (wr48_env _ _ _ _ _) ER
    have E6 : sameEnv c6 b := sameEnv_pair heq4
      (sameEnv_trans (wr48_env _ _ _ _ _) E5C)
  case' neg =>
    simp only [if_neg hif5] at heq4
    have E5C : sameEnv
        (Icm20948.WriteRegister
        (Icm20948.WriteAk09916Register s4 c4 Icm20948.AK09916_CNTL3_
          Icm20948.AK09916_CNTL3_SRST_).2.1
        (Icm20948.WriteAk09916Register s4 c4 Icm20948.AK09916_CNTL3_
          Icm20948.AK09916_CNTL3_SRST_).2.2
        Icm20948.BANK_0_ Icm20948.PWR_MGMT_1_
        Icm20948.PWR_MGMT_1_RESET_).2.2 b := ER
    have E6 : sameEnv c6 b := sameEnv_pair heq4
      (sameEnv_trans (wr48_env _ _ _ _ _) E5C)
  all_goals
    split at hB
    · simp at hB
    rename_i v1 s7 c7 heq5
    try dsimp only at hB
    have E7 : sameEnv c7 b := sameEnv_pair heq5
      (sameEnv_trans (rd48_env _ _ _ _ _) E6)
    split at hB
    · simp at hB
    rename_i hwne1
    have hw1 : v1.getD 0 s7.whoAmI = Icm20948.WHOAMI_ICM20649_ :=
      not_not.mp hwne1
    try dsimp only at hB
    split at hB
    · simp at hB
    rename_i s8 c8 heq6
    try dsimp only at hB
    have E8 : sameEnv c8 b := sameEnv_pair heq6
      (sameEnv_trans (wr48_env _ _ _ _ _) E7)
    split at hB
    · simp at hB
    rename_i s9 c9 heq7
    try dsimp only at hB
    have E9 : sameEnv c9 b := sameEnv_pair heq7
      (sameEnv_trans (wr48_env _ _ _ _ _) E8)
    split at hB
    · simp at hB
    rename_i v2 s10 c10 heq8
    try dsimp only at hB
    have E10 : sameEnv c10 b := sameEnv_pair heq8
      (sameEnv_trans (rdAk48_env _ _ _ _) E9)
    split at hB
    · simp at hB
    rename_i hwne2
    have hw2 : v2.getD 0 s10.whoAmI = Icm20948.WHOAMI_AK09916_ :=
      not_not.mp hwne2
    try dsimp only at hB
    split at hB
    · simp at hB
    rename_i s11 c11 heq9
    try dsimp only at hB
    have E11 : sameEnv c11 b := sameEnv_pair heq9
      (sameEnv_trans (wr48_env _ _ _ _ _) E10)
    split at hB
    · simp at hB
    rename_i s12 c12 heq10
    try dsimp only at hB
    have E12 : sameEnv c12 b := sameEnv_pair heq10
      (sameEnv_trans (cfgAR48_env _ _ _) E11)
    split at hB
    · simp at hB
    rename_i s13 c13 heq11
    try dsimp only at hB
    have E13 : sameEnv c13 b := sameEnv_pair heq11
      (sameEnv_trans (cfgGR48_env _ _ _) E12)
    split at hB
    · simp at hB
    rename_i s14 c14 heq12
    try dsimp only at hB
    have E14 : sameEnv c14 b := sameEnv_pair heq12
      (sameEnv_trans (cfgAD48_env _ _ _) E13)
    split at hB
    · simp at hB
    rename_i s15 c15 heq13
    try dsimp only at hB
    have E15 : sameEnv c15 b := sameEnv_pair heq13
      (sameEnv_trans (cfgGD48_env _ _ _) E14)
    split at hB
    · simp at hB
    rename_i s16 c16 heq14
    try dsimp only at hB
    have E16 : sameEnv c16 b := sameEnv_pair heq14
      (sameEnv_trans (cfgTD48_env _ _ _) E15)
    split at hB
    · simp at hB
    rename_i s17 c17 heq15
    try dsimp only at hB
    have E17 : sameEnv c17 b := sameEnv_pair heq15
      (sameEnv_trans (cfgSrd48_env _ _ _) E16)
    exact ⟨s1, c1, s2, c2, s3, c3, s4, c4, _, _, _, _, _, _, _, _, s6, c6,
      v1, s7, c7, s8, c8, s9, c9, v2, s10, c10, s11, c11, s12, c12, s13, c13,
      s14, c14, s15, c15, s16, c16, s17, c17,
      E1, hPspi, heq1, E2, heq2, E3, heq3, E4, rfl, rfl, E5C, heq4, E6,
      heq5, E7, hw1, heq6, E8, heq7, E9, heq8, E10, hw2, heq9, E11, heq10, E12,
      heq11, E13, heq12, E14, heq13, E15, heq14, E16, heq15, E17, hB.symm⟩

/-- The ICM20948 initial state in SPI mode, for exercising the
interface-disable path. -/
def st48spi : Icm20948.St := { Icm20948.initSt with iface := Iface.spi }

/-- The ICM20649 initial state in SPI mode. -/
def st49spi : Icm20649.St := { Icm20649.initSt with iface := Iface.spi }

/-- `envAkOk` except that every SPI interface-disable write to the user
control register is refused by the transport. -/
def env48IfDisFail : Bus :=
  { ok := fun _ t =>
      !(t == Txn.wr Icm20948.USER_CTRL_ Icm20948.USER_CTRL_I2C_IF_DIS_)
    resp := akResp Icm20948.WHOAMI_ICM20649_ Icm20948.WHOAMI_AK09916_
    trace := [] }

/-- The bank selected by the last bank-select write in a trace (the
ICM20948's bank-select value is the bank shifted into the upper nibble). -/
def lastBank (tr : List Txn) : Nat :=
  ((lastWr tr Icm20948.REG_BANK_SEL_).getD 0) >>> 4

/-- Whether some transaction of a trace satisfies `p` of the history
before it and the transaction itself — used to certify that a transport
actually saw a particular attempt in context. -/
def hasAttempt (tr : List Txn) (p : List Txn → Txn → Bool) : Bool :=
  (List.range tr.length).any fun n =>
    p (tr.take n) (tr.getD n (Txn.rd 0 0))

/-- `envAkOk` except that the auxiliary soft reset's staged data byte is
refused: the transport rejects the write of `AK09916_CNTL3_SRST_` to
`I2C_SLV0_D0_` exactly when bank 3 is selected and the auxiliary register
pointer was last staged to `AK09916_CNTL3_` (the bank/pointer context
distinguishes it from the clock-select write, which shares the same
register address and byte). -/
def env48SrstFail : Bus :=
  { ok := fun tr t =>
      !(t == Txn.wr Icm20948.I2C_SLV0_D0_ Icm20948.AK09916_CNTL3_SRST_ &&
        lastBank tr == 3 &&
        lastSlvReg tr == some Icm20948.AK09916_CNTL3_)
    resp := akResp Icm20948.WHOAMI_ICM20649_ Icm20948.WHOAMI_AK09916_
    trace := [] }

/-- A transport for the ICM20649 on which every transaction succeeds and
the identity register answers correctly, except that a bank-2 select is
refused when no bank-2 select has been attempted before (so exactly the
first, unchecked `SetBank(2)` of `Begin` fails). -/
def env49Bank2Fail : Bus :=
  { ok := fun tr t =>
      !(t == Txn.wr Icm20649.REG_BANK_SEL_ 32 &&
        !(tr.contains (Txn.wr Icm20649.REG_BANK_SEL_ 32)))
    resp := fun _ reg _ =>
      if reg = Icm20649.WHO_AM_I_ then Icm20649.WHOAMI_ICM20649_ else 0
    trace := [] }

/-- A transport for the ICM20649 refusing every SPI interface-disable
write, with the identity register answering correctly. -/
def env49IfDisFail : Bus :=
  { ok := fun _ t =>
      !(t == Txn.wr Icm20649.USER_CTRL_ Icm20649.I2C_IF_DIS_)
    resp := fun _ reg _ =>
      if reg = Icm20649.WHO_AM_I_ then Icm20649.WHOAMI_ICM20649_ else 0
    trace := [] }

/-- C4 (amended): for every driver state and transport, `Begin` of either
banked variant returns overall success only if every checked step of its
bring-up sequence ran, in order, against that same transport and
succeeded — on the ICM20948 both clock-source selects, both
auxiliary-master enables, both auxiliary bus-clock writes, the primary
WHO-AM-I read matching the expected identity byte, the AK09916 WHO-AM-I
read matching, the ODR-align write, and every default range/DLPF/SRD
configuration step; on the ICM20649 the bank-0 select, the clock-source
select, the WHO-AM-I read matching, the ODR-align write, and every
default range/DLPF/SRD step — so a transport failing any checked step
forces a failure return.  The unchecked steps are issued with their
results discarded: the trajectory records the auxiliary soft reset, the
IMU reset and the ICM20649 bank-2 select with unconstrained result
flags, and concrete transports refusing exactly the SPI
interface-disable writes, the auxiliary soft reset's staged byte, or the
ICM20649's first bank-2 select still yield overall success (the ignored
IMU reset failure is this claim's counterexample). -/
theorem c4_begin_checked_steps_required :
    (∀ (st : Icm20948.St) (b : Bus), (Icm20948.Begin st b).1 = true →
    ∃ (s1 : Icm20948.St) (c1 : Bus) (s2 : Icm20948.St) (c2 : Bus)
          (s3 : Icm20948.St) (c3 : Bus) (s4 : Icm20948.St) (c4 : Bus)
          (fA : Bool) (sA : Icm20948.St) (cA : Bus)
          (fR : Bool) (sR : Icm20948.St) (cR : Bus)
          (s5 : Icm20948.St) (c5 : Bus) (s6 : Icm20948.St) (c6 : Bus)
          (v1 : List Nat) (s7 : Icm20948.St) (c7 : Bus)
          (s8 : Icm20948.St) (c8 : Bus) (s9 : Icm20948.St) (c9 : Bus)
          (v2 : List Nat) (s10 : Icm20948.St) (c10 : Bus)
          (s11 : Icm20948.St) (c11 : Bus) (s12 : Icm20948.St) (c12 : Bus)
          (s13 : Icm20948.St) (c13 : Bus) (s14 : Icm20948.St) (c14 : Bus)
          (s15 : Icm20948.St) (c15 : Bus) (s16 : Icm20948.St) (c16 : Bus)
          (s17 : Icm20948.St) (c17 : Bus),
          sameEnv c1 b ∧
          (st.iface = Iface.spi → ∃ f0, Icm20948.WriteRegister st b
            Icm20948.BANK_0_ Icm20948.USER_CTRL_ Icm20948.USER_CTRL_I2C_IF_DIS_
            = (f0, s1, c1)) ∧
          Icm20948.WriteRegister s1 c1 Icm20948.BANK_0_ Icm20948.PWR_MGMT_1_
            Icm20948.PWR_MGMT_1_CLKSEL_AUTO_ = (true, s2, c2) ∧
          sameEnv c2 b ∧
          Icm20948.WriteRegister s2 c2 Icm20948.BANK_0_ Icm20948.USER_CTRL_
            Icm20948.USER_CTRL_I2C_MST_EN_ = (true, s3, c3) ∧
          sameEnv c3 b ∧
          Icm20948.WriteRegister s3 c3 Icm20948.BANK_3_ Icm20948.I2C_MST_CTRL_
            Icm20948.I2C_MST_CTRL_400_KHZ_CLK_ = (true, s4, c4) ∧
          sameEnv c4 b ∧
          Icm20948.WriteAk09916Register s4 c4 Icm20948.AK09916_CNTL3_
            Icm20948.AK09916_CNTL3_SRST_ = (fA, sA, cA) ∧
          Icm20948.WriteRegister sA cA Icm20948.BANK_0_ Icm20948.PWR_MGMT_1_
            Icm20948.PWR_MGMT_1_RESET_ = (fR, sR, cR) ∧
          sameEnv c5 b ∧
          Icm20948.WriteRegister s5 c5 Icm20948.BANK_0_ Icm20948.PWR_MGMT_1_
            Icm20948.PWR_MGMT_1_CLKSEL_AUTO_ = (true, s6, c6) ∧
          sameEnv c6 b ∧
          Icm20948.ReadRegisters s6 c6 Icm20948.BANK_0_ Icm20948.WHO_AM_I_ 1
            = (some v1, s7, c7) ∧
          sameEnv c7 b ∧
          v1.getD 0 s7.whoAmI = Icm20948.WHOAMI_ICM20649_ ∧
          Icm20948.WriteRegister { s7 with whoAmI := v1.getD 0 s7.whoAmI } c7
            Icm20948.BANK_0_ Icm20948.USER_CTRL_ Icm20948.USER_CTRL_I2C_MST_EN_
            = (true, s8, c8) ∧
          sameEnv c8 b ∧
          Icm20948.WriteRegister s8 c8 Icm20948.BANK_3_ Icm20948.I2C_MST_CTRL_
            Icm20948.I2C_MST_CTRL_400_KHZ_CLK_ = (true, s9, c9) ∧
          sameEnv c9 b ∧
          Icm20948.ReadAk09916Registers s9 c9 Icm20948.AK09916_WIA2_ 1
            = (some v2, s10, c10) ∧
          sameEnv c10 b ∧
          v2.getD 0 s10.whoAmI = Icm20948.WHOAMI_AK09916_ ∧
          Icm20948.WriteRegister { s10 with whoAmI := v2.getD 0 s10.whoAmI } c10
            Icm20948.BANK_2_ Icm20948.ODR_ALIGN_EN_
            Icm20948.ODR_ALIGN_EN_ALIGN_ENABLE_ = (true, s11, c11) ∧
          sameEnv c11 b ∧
          Icm20948.ConfigAccelRange s11 c11 Icm20948.ACCEL_RANGE_16G
            = (true, s12, c12) ∧
          sameEnv c12 b ∧
          Icm20948.ConfigGyroRange s12 c12 Icm20948.GYRO_RANGE_2000DPS
            = (true, s13, c13) ∧
          sameEnv c13 b ∧
          Icm20948.ConfigAccelDlpfBandwidth s13 c13
            Icm20948.ACCEL_DLPF_BANDWIDTH_473HZ = (true, s14, c14) ∧
          sameEnv c14 b ∧
          Icm20948.ConfigGyroDlpfBandwidth s14 c14
            Icm20948.GYRO_DLPF_BANDWIDTH_361HZ = (true, s15, c15) ∧
          sameEnv c15 b ∧
          Icm20948.ConfigTempDlpfBandwidth s15 c15
            Icm20948.TEMP_DLPF_BANDWIDTH_7932HZ = (true, s16, c16) ∧
          sameEnv c16 b ∧
          Icm20948.ConfigSrd s16 c16 0 = (true, s17, c17) ∧
          sameEnv c17 b ∧
          Icm20948.Begin st b = (true, s17, c17)) ∧
    (∀ (st : Icm20649.St) (b : Bus), (Icm20649.Begin st b).1 = true →
    ∃ (s1 : Icm20649.St) (c1 : Bus) (s2 : Icm20649.St) (c2 : Bus)
          (s3 : Icm20649.St) (c3 : Bus) (v1 : List Nat) (s4 : Icm20649.St)
          (c4 : Bus) (f5 : Bool) (s5 : Icm20649.St) (c5 : Bus)
          (s6 : Icm20649.St) (c6 : Bus) (s7 : Icm20649.St) (c7 : Bus)
          (s8 : Icm20649.St) (c8 : Bus) (s9 : Icm20649.St) (c9 : Bus)
          (s10 : Icm20649.St) (c10 : Bus) (s11 : Icm20649.St) (c11 : Bus),
          sameEnv c1 b ∧
          Icm20649.SetBank s1 c1 0 = (true, s2, c2) ∧
          sameEnv c2 b ∧
          Icm20649.WriteRegister s2 c2 Icm20649.PWR_MGMT_1_ Icm20649.CLKSEL_AUTO_
            = (true, s3, c3) ∧
          sameEnv c3 b ∧
          Icm20649.ReadRegisters s3 c3 Icm20649.WHO_AM_I_ 1
            = (some v1, s4, c4) ∧
          sameEnv c4 b ∧
          v1.getD 0 s4.whoAmI = Icm20649.WHOAMI_ICM20649_ ∧
          Icm20649.SetBank { s4 with whoAmI := v1.getD 0 s4.whoAmI } c4 2
            = (f5, s5, c5) ∧
          sameEnv c5 b ∧
          Icm20649.WriteRegister s5 c5 Icm20649.ODR_ALIGN_EN_ Icm20649.ALIGN_ODR_
            = (true, s6, c6) ∧
          sameEnv c6 b ∧
          Icm20649.ConfigAccelRange s6 c6 Icm20649.ACCEL_RANGE_30G
            = (true, s7, c7) ∧
          sameEnv c7 b ∧
          Icm20649.ConfigGyroRange s7 c7 Icm20649.GYRO_RANGE_4000DPS
            = (true, s8, c8) ∧
          sameEnv c8 b ∧
          Icm20649.ConfigAccelDlpfBandwidth s8 c8
            Icm20649.ACCEL_DLPF_BANDWIDTH_111HZ = (true, s9, c9) ∧
          sameEnv c9 b ∧
          Icm20649.ConfigGyroDlpfBandwidth s9 c9
            Icm20649.GYRO_DLPF_BANDWIDTH_119HZ = (true, s10, c10) ∧
          sameEnv c10 b ∧
          Icm20649.ConfigSrd s10 c10 0 = (true, s11, c11) ∧
          Icm20649.Begin st b = (true, s11, c11)) ∧
    (Icm20948.Begin st48spi env48IfDisFail).1 = true ∧
    Txn.wr Icm20948.USER_CTRL_ Icm20948.USER_CTRL_I2C_IF_DIS_ ∈
      (Icm20948.Begin st48spi env48IfDisFail).2.2.trace ∧
    (∀ tr, env48IfDisFail.ok tr
      (Txn.wr Icm20948.USER_CTRL_ Icm20948.USER_CTRL_I2C_IF_DIS_) = false) ∧
    (Icm20948.Begin Icm20948.initSt env48SrstFail).1 = true ∧
    hasAttempt (Icm20948.Begin Icm20948.initSt env48SrstFail).2.2.trace
      (fun pre t =>
        t == Txn.wr Icm20948.I2C_SLV0_D0_ Icm20948.AK09916_CNTL3_SRST_ &&
        lastBank pre == 3 &&
        lastSlvReg pre == some Icm20948.AK09916_CNTL3_) = true ∧
    (∀ tr, lastBank tr = 3 →
      lastSlvReg tr = some Icm20948.AK09916_CNTL3_ →
      env48SrstFail.ok tr
        (Txn.wr Icm20948.I2C_SLV0_D0_ Icm20948.AK09916_CNTL3_SRST_)
        = false) ∧
    (Icm20649.Begin Icm20649.initSt env49Bank2Fail).1 = true ∧
    Txn.wr Icm20649.REG_BANK_SEL_ 32 ∈
      (Icm20649.Begin Icm20649.initSt env49Bank2Fail).2.2.trace ∧
    (∀ tr, tr.contains (Txn.wr Icm20649.REG_BANK_SEL_ 32) = false →
      env49Bank2Fail.ok tr (Txn.wr Icm20649.REG_BANK_SEL_ 32) = false) ∧
    (Icm20649.Begin st49spi env49IfDisFail).1 = true ∧
    Txn.wr Icm20649.USER_CTRL_ Icm20649.I2C_IF_DIS_ ∈
      (Icm20649.Begin st49spi env49IfDisFail).2.2.trace ∧
    (∀ tr, env49IfDisFail.ok tr
      (Txn.wr Icm20649.USER_CTRL_ Icm20649.I2C_IF_DIS_) = false) :=
  ⟨fun st b h => begin48_master st b h,
   fun st b h => begin49_master st b h,
   by decide, by decide, fun tr => rfl,
   by decide, by decide,
   fun tr h1 h2 => by simp [env48SrstFail, h1, h2],
   by decide, by decide,
   fun tr h => by simp only [env49Bank2Fail, h, Bool.not_false,
     Bool.and_true, Bool.not_eq_eq_eq_not]; rfl,
   by decide, by decide, fun tr => rfl⟩

/-- Witness for C4 at the healthy transport `envAkOk`: both bring-up
sequences succeed there, and the universal parts of the theorem
instantiate to concrete successful trajectories. -/
theorem c4_begin_checked_steps_required_witness :
    (∃ (s1 : Icm20948.St) (c1 : Bus) (s2 : Icm20948.St) (c2 : Bus)
        (s3 : Icm20948.St) (c3 : Bus) (s4 : Icm20948.St) (c4 : Bus)
        (fA : Bool) (sA : Icm20948.St) (cA : Bus)
        (fR : Bool) (sR : Icm20948.St) (cR : Bus)
        (s5 : Icm20948.St) (c5 : Bus) (s6 : Icm20948.St) (c6 : Bus)
        (v1 : List Nat) (s7 : Icm20948.St) (c7 : Bus)
        (s8 : Icm20948.St) (c8 : Bus) (s9 : Icm20948.St) (c9 : Bus)
        (v2 : List Nat) (s10 : Icm20948.St) (c10 : Bus)
        (s11 : Icm20948.St) (c11 : Bus) (s12 : Icm20948.St) (c12 : Bus)
        (s13 : Icm20948.St) (c13 : Bus) (s14 : Icm20948.St) (c14 : Bus)
        (s15 : Icm20948.St) (c15 : Bus) (s16 : Icm20948.St) (c16 : Bus)
        (s17 : Icm20948.St) (c17 : Bus),
        sameEnv c1 envAkOk ∧
        (Icm20948.initSt.iface = Iface.spi → ∃ f0, Icm20948.WriteRegister Icm20948.initSt envAkOk
          Icm20948.BANK_0_ Icm20948.USER_CTRL_ Icm20948.USER_CTRL_I2C_IF_DIS_
          = (f0, s1, c1)) ∧
        Icm20948.WriteRegister s1 c1 Icm20948.BANK_0_ Icm20948.PWR_MGMT_1_
          Icm20948.PWR_MGMT_1_CLKSEL_AUTO_ = (true, s2, c2) ∧
        sameEnv c2 envAkOk ∧
        Icm20948.WriteRegister s2 c2 Icm20948.BANK_0_ Icm20948.USER_CTRL_
          Icm20948.USER_CTRL_I2C_MST_EN_ = (true, s3, c3) ∧
        sameEnv c3 envAkOk ∧
        Icm20948.WriteRegister s3 c3 Icm20948.BANK_3_ Icm20948.I2C_MST_CTRL_
          Icm20948.I2C_MST_CTRL_400_KHZ_CLK_ = (true, s4, c4) ∧
        sameEnv c4 envAkOk ∧
        Icm20948.WriteAk09916Register s4 c4 Icm20948.AK09916_CNTL3_
          Icm20948.AK09916_CNTL3_SRST_ = (fA, sA, cA) ∧
        Icm20948.WriteRegister sA cA Icm20948.BANK_0_ Icm20948.PWR_MGMT_1_
          Icm20948.PWR_MGMT_1_RESET_ = (fR, sR, cR) ∧
        sameEnv c5 envAkOk ∧
        Icm20948.WriteRegister s5 c5 Icm20948.BANK_0_ Icm20948.PWR_MGMT_1_
          Icm20948.PWR_MGMT_1_CLKSEL_AUTO_ = (true, s6, c6) ∧
        sameEnv c6 envAkOk ∧
        Icm20948.ReadRegisters s6 c6 Icm20948.BANK_0_ Icm20948.WHO_AM_I_ 1
          = (some v1, s7, c7) ∧
        sameEnv c7 envAkOk ∧
        v1.getD 0 s7.whoAmI = Icm20948.WHOAMI_ICM20649_ ∧
        Icm20948.WriteRegister { s7 with whoAmI := v1.getD 0 s7.whoAmI } c7
          Icm20948.BANK_0_ Icm20948.USER_CTRL_ Icm20948.USER_CTRL_I2C_MST_EN_
          = (true, s8, c8) ∧
        sameEnv c8 envAkOk ∧
        Icm20948.WriteRegister s8 c8 Icm20948.BANK_3_ Icm20948.I2C_MST_CTRL_
          Icm20948.I2C_MST_CTRL_400_KHZ_CLK_ = (true, s9, c9) ∧
        sameEnv c9 envAkOk ∧
        Icm20948.ReadAk09916Registers s9 c9 Icm20948.AK09916_WIA2_ 1
          = (some v2, s10, c10) ∧
        sameEnv c10 envAkOk ∧
        v2.getD 0 s10.whoAmI = Icm20948.WHOAMI_AK09916_ ∧
        Icm20948.WriteRegister { s10 with whoAmI := v2.getD 0 s10.whoAmI } c10
          Icm20948.BANK_2_ Icm20948.ODR_ALIGN_EN_
          Icm20948.ODR_ALIGN_EN_ALIGN_ENABLE_ = (true, s11, c11) ∧
        sameEnv c11 envAkOk ∧
        Icm20948.ConfigAccelRange s11 c11 Icm20948.ACCEL_RANGE_16G
          = (true, s12, c12) ∧
        sameEnv c12 envAkOk ∧
        Icm20948.ConfigGyroRange s12 c12 Icm20948.GYRO_RANGE_2000DPS
          = (true, s13, c13) ∧
        sameEnv c13 envAkOk ∧
        Icm20948.ConfigAccelDlpfBandwidth s13 c13
          Icm20948.ACCEL_DLPF_BANDWIDTH_473HZ = (true, s14, c14) ∧
        sameEnv c14 envAkOk ∧
        Icm20948.ConfigGyroDlpfBandwidth s14 c14
          Icm20948.GYRO_DLPF_BANDWIDTH_361HZ = (true, s15, c15) ∧
        sameEnv c15 envAkOk ∧
        Icm20948.ConfigTempDlpfBandwidth s15 c15
          Icm20948.TEMP_DLPF_BANDWIDTH_7932HZ = (true, s16, c16) ∧
        sameEnv c16 envAkOk ∧
        Icm20948.ConfigSrd s16 c16 0 = (true, s17, c17) ∧
        sameEnv c17 envAkOk ∧
        Icm20948.Begin Icm20948.initSt envAkOk = (true, s17, c17)) ∧
    (∃ (s1 : Icm20649.St) (c1 : Bus) (s2 : Icm20649.St) (c2 : Bus)
        (s3 : Icm20649.St) (c3 : Bus) (v1 : List Nat) (s4 : Icm20649.St)
        (c4 : Bus) (f5 : Bool) (s5 : Icm20649.St) (c5 : Bus)
        (s6 : Icm20649.St) (c6 : Bus) (s7 : Icm20649.St) (c7 : Bus)
        (s8 : Icm20649.St) (c8 : Bus) (s9 : Icm20649.St) (c9 : Bus)
        (s10 : Icm20649.St) (c10 : Bus) (s11 : Icm20649.St) (c11 : Bus),
        sameEnv c1 envAkOk ∧
        Icm20649.SetBank s1 c1 0 = (true, s2, c2) ∧
        sameEnv c2 envAkOk ∧
        Icm20649.WriteRegister s2 c2 Icm20649.PWR_MGMT_1_ Icm20649.CLKSEL_AUTO_
          = (true, s3, c3) ∧
        sameEnv c3 envAkOk ∧
        Icm20649.ReadRegisters s3 c3 Icm20649.WHO_AM_I_ 1
          = (some v1, s4, c4) ∧
        sameEnv c4 envAkOk ∧
        v1.getD 0 s4.whoAmI = Icm20649.WHOAMI_ICM20649_ ∧
        Icm20649.SetBank { s4 with whoAmI := v1.getD 0 s4.whoAmI } c4 2
          = (f5, s5, c5) ∧
        sameEnv c5 envAkOk ∧
        Icm20649.WriteRegister s5 c5 Icm20649.ODR_ALIGN_EN_ Icm20649.ALIGN_ODR_
          = (true, s6, c6) ∧
        sameEnv c6 envAkOk ∧
        Icm20649.ConfigAccelRange s6 c6 Icm20649.ACCEL_RANGE_30G
          = (true, s7, c7) ∧
        sameEnv c7 envAkOk ∧
        Icm20649.ConfigGyroRange s7 c7 Icm20649.GYRO_RANGE_4000DPS
          = (true, s8, c8) ∧
        sameEnv c8 envAkOk ∧
        Icm20649.ConfigAccelDlpfBandwidth s8 c8
          Icm20649.ACCEL_DLPF_BANDWIDTH_111HZ = (true, s9, c9) ∧
        sameEnv c9 envAkOk ∧
        Icm20649.ConfigGyroDlpfBandwidth s9 c9
          Icm20649.GYRO_DLPF_BANDWIDTH_119HZ = (true, s10, c10) ∧
        sameEnv c10 envAkOk ∧
        Icm20649.ConfigSrd s10 c10 0 = (true, s11, c11) ∧
        Icm20649.Begin Icm20649.initSt envAkOk = (true, s11, c11)) :=
  ⟨c4_begin_checked_steps_required.1 Icm20948.initSt envAkOk (by decide),
   c4_begin_checked_steps_required.2.1 Icm20649.initSt envAkOk (by decide)⟩


/-- Witness for C5 at the concrete initial driver state: the failed
status read surfaces as a false return with only the new-data flag
cleared, while the failed burst read does not stop `Read` from returning
true. -/
theorem c5_transport_failure_surfacing_witness :
    (Icm20948.Read { Icm20948.initSt with currentBank := 0 }
      envStatusFail48).1 = false ∧
    (Icm20948.Read { Icm20948.initSt with currentBank := 0 }
      envStatusFail48).2.1 =
      { Icm20948.initSt with currentBank := 0, newImuData := false } ∧
    (Icm20948.Read Icm20948.initSt envBurstFail48).1 = true ∧
    (Icm20649.Read Icm20649.initSt envBurstFail49).1 = true :=
  c5_transport_failure_surfacing Icm20948.initSt

/-- Witness for C6 at concrete inputs: current register byte 0xC3 with
both adjacent fields pre-set, accel range field value 2: the byte written
back to the accel configuration register agrees with 0xC3 outside bits
1-2. -/
theorem c6_rmw_preserves_unrelated_bits_witness :
    ∃ v,
      lastWr (Icm20948.ConfigAccelRange
          { Icm20948.initSt with currentBank := 2 }
          (constBus (195 : Fin 256).val) (2 : Fin 4).val).2.2.trace
          Icm20948.ACCEL_CONFIG_ =
        some v ∧ ((v ^^^ (195 : Fin 256).val % 256) &&& 0xF9) = 0 :=
  c6_rmw_preserves_unrelated_bits.1 195 2
